import Mathlib

/-!
Blaze-Go: session/protocol client

Shallow embedding of the Go sources

* `src/data/usecases/blaze-socket.go`          (`BlazeSocket`)
* `src/data/usecases/blaze-messages-socket.go` (`BlazeMessageSocket`)
* `src/infra/app/socket.go`                    (`NodeConnectionSocket`)

Conventions of the embedding.

* A Go `interface{}` holding a value decoded by `encoding/json` is a `Json`:
  `nil`, `bool`, `float64`, `string`, `[]interface{}`, `map[string]interface{}`.
  A decoded `float64` is finite, so it is carried as the rational it denotes
  (`-0` and `0` compare equal in Go as they do here).
* The text-to-value JSON parser of `encoding/json` is library code; it is the
  parameter `parse`.  Object members are kept in document order, so that both
  the binding into the struct `messageData` and the Go map of a payload can be
  derived from them.
* A run-time panic is an explicit `fault`; an unrecovered panic ends the process.
* `go callback(data)` is recorded as a launch of the callback: callbacks are
  identified by numbers, user callbacks are never executed by the model.
-/

namespace Blaze

/-! ## Decoded JSON values -/

/-- Dynamic value held in a Go `interface{}` after `json.Unmarshal`. -/
inductive Json where
  | null
  | bool (b : Bool)
  | num (q : Rat)
  | str (s : String)
  | arr (xs : List Json)
  | obj (members : List (String × Json))

/-- Go `a != b` on two interface values: `none` is the run-time panic raised when both
dynamic types are identical and not comparable (slices, maps); values of different
dynamic types are unequal. -/
def ifaceNe : Json → Json → Option Bool
  | .null, .null => some false
  | .bool a, .bool b => some (a != b)
  | .num a, .num b => some (a != b)
  | .str a, .str b => some (a != b)
  | .arr _, .arr _ => none
  | .obj _, .obj _ => none
  | _, _ => some true

/-- Dynamic types for which Go interface comparison is defined on equal types. -/
def Json.isScalar : Json → Bool
  | .arr _ => false
  | .obj _ => false
  | _ => true

/-- Go map built by `encoding/json` from the members of an object: the last member
with a given key wins. -/
def mapGet (members : List (String × Json)) (key : String) : Option Json :=
  members.reverse.lookup key

/-! ## Frame pattern `^\d+\["data",\s*({.*})]$` -/

/-- Class `\d` of Go regexp: ASCII digits. -/
def isDigit (c : Char) : Bool :=
  decide (48 ≤ c.toNat ∧ c.toNat ≤ 57)

/-- Class `\s` of Go regexp: `[\t\n\f\r ]`. -/
def isSpace (c : Char) : Bool :=
  c.toNat == 9 || c.toNat == 10 || c.toNat == 12 || c.toNat == 13 || c.toNat == 32

/-- Line feed, the one character `.` does not match. -/
def lineFeed : Char := Char.ofNat 10

/-- Opening brace. -/
def lbrace : Char := Char.ofNat 123

/-- Closing brace. -/
def rbrace : Char := Char.ofNat 125

/-- Closing bracket. -/
def rbracket : Char := Char.ofNat 93

/-- The literal `["data",` of the pattern. -/
def dataTag : List Char := "[\"data\",".toList

/-- Consume a literal at the head of the input. -/
def dropLiteral : List Char → List Char → Option (List Char)
  | [], rest => some rest
  | _ :: _, [] => none
  | t :: ts, c :: cs => if t = c then dropLiteral ts cs else none

/-- The tail `({.*})]$` of the pattern: the input is `{`, then characters other than
line feed, then `}` and `]` at the end of the text.  The result is capture group 1. -/
def matchBody (r : List Char) : Option (List Char) :=
  match r with
  | [] => none
  | c :: rest =>
    if c = lbrace then
      match rest.reverse with
      | c1 :: c2 :: xr =>
        if c1 = rbracket ∧ c2 = rbrace ∧ lineFeed ∉ xr then
          some (lbrace :: (xr.reverse ++ [rbrace]))
        else none
      | _ => none
    else none

/-- Go `regex.FindStringSubmatch(msg)` for the pattern, reduced to `matches[1]`;
`none` when `len(matches) < 2`.  Neither `[` nor `{` is in the class that precedes it,
so `\d+` and `\s*` consume exactly the maximal run. -/
def matchDataFrame (msg : String) : Option String :=
  let cs := msg.toList
  if cs.takeWhile isDigit = [] then none
  else
    match dropLiteral dataTag (cs.dropWhile isDigit) with
    | none => none
    | some r => (matchBody (r.dropWhile isSpace)).map String.mk

/-! ## Decoding -/

/-- Argument of a transport callback (`interface{}`): bytes, a string, an int, or a
value of any other dynamic type (including `nil`). -/
inductive Data where
  | bytes (v : String)
  | text (v : String)
  | int (n : Int)
  | other

/-- The local struct `messageData` of both message handlers. -/
structure MessageData where
  Payload : Json
  ID : String

/-- Key of a JSON member folded the way `encoding/json` folds names to find a struct
field; the field names `payload` and `id` have no non-ASCII case variant. -/
def foldKey (key : String) : String :=
  String.mk (key.toList.map Char.toLower)

/-- One member bound into `messageData`; the flag records a type error (`id` holding
a value that is neither a string nor null), which `json.Unmarshal` reports at the end. -/
def bindMember (acc : MessageData × Bool) (kv : String × Json) : MessageData × Bool :=
  if foldKey kv.1 = "payload" then (⟨kv.2, acc.1.ID⟩, acc.2)
  else if foldKey kv.1 = "id" then
    match kv.2 with
    | .str s => (⟨acc.1.Payload, s⟩, acc.2)
    | .null => acc
    | _ => (acc.1, true)
  else acc

/-- Binding of the members of an object into `messageData`, in document order. -/
def bindMembers (members : List (String × Json)) : MessageData × Bool :=
  members.foldl bindMember (⟨.null, ""⟩, false)

/-- Go `json.Unmarshal([]byte(body), &messageData)`; `none` is `err != nil`. -/
def unmarshalMessageData (parse : String → Option Json) (body : String) : Option MessageData :=
  match parse body with
  | some (.obj members) =>
    if (bindMembers members).2 then none else some (bindMembers members).1
  | _ => none

/-- Go type switch at the head of both message handlers. -/
def coerceText : Data → Option String
  | .bytes v => some v
  | .text v => some v
  | _ => none

/-- Prefix shared by both message handlers, up to and including the check
`messageData.Payload == nil || messageData.ID == ""`. -/
def decodeFrame (parse : String → Option Json) (data : Data) : Option MessageData :=
  match coerceText data with
  | none => none
  | some msg =>
    match matchDataFrame msg with
    | none => none
    | some body =>
      match unmarshalMessageData parse body with
      | none => none
      | some md =>
        match md.Payload with
        | .null => none
        | _ => if md.ID = "" then none else some md

/-! ## Events and the callback registry -/

/-- Data carried by an event emitted by a client. -/
inductive EventData where
  | payload (j : Json)
  | subscriptions (rooms : List String)
  | closeEvent (code : Int) (reconnect : Bool)
  | error (message : String)

/-- Go `map[string][]func(interface{})`; the functions are named by values of `α`. -/
abbrev Registry (α : Type) := List (String × List α)

/-- Go `callbacks[event]` (an absent key gives the nil slice). -/
def Registry.get {α : Type} (r : Registry α) (event : String) : List α :=
  (r.lookup event).getD []

/-- Go `callbacks[event] = cbs`. -/
def Registry.set {α : Type} (r : Registry α) (event : String) (cbs : List α) : Registry α :=
  match r with
  | [] => [(event, cbs)]
  | (e, old) :: rest =>
    if e = event then (e, cbs) :: rest else (e, old) :: Registry.set rest event cbs

/-- One call of `emit(event, data)`, with the callbacks it launched, in launch order. -/
structure Emit where
  event : String
  data : EventData
  launched : List Nat

/-- Go `emit` of both clients. -/
def emitOn (callbacks : Registry Nat) (event : String) (data : EventData) : Emit :=
  ⟨event, data, Registry.get callbacks event⟩

/-- Go `On` of both clients and of the transport. -/
def onRegister {α : Type} (callbacks : Registry α) (event : String) (callback : α) : Registry α :=
  Registry.set callbacks event (Registry.get callbacks event ++ [callback])

/-! ## BlazeSocket -/

/-- Go `map[string]interface{}` used as dedup cache. -/
abbrev Cache := List (String × Json)

/-- Go `cache[key]` with the comma-ok form. -/
def Cache.get (c : Cache) (key : String) : Option Json :=
  c.lookup key

/-- Go `cache[key] = value`. -/
def Cache.set (c : Cache) (key : String) (value : Json) : Cache :=
  (key, value) :: c.filter (fun e => e.1 ≠ key)

/-- Fields of `BlazeSocket` other than the transport; `interval` names the ticker
held in `b.interval`. -/
structure BlazeSocket where
  callbacks : Registry Nat
  cache : Option Cache
  interval : Option Nat
  cacheIgnoreRepeatedEvents : Bool

/-- Go `NewBlazeSocket`. -/
def NewBlazeSocket (cacheIgnoreRepeatedEvents : Bool) : BlazeSocket :=
  { callbacks := []
    cache := if cacheIgnoreRepeatedEvents then some [] else none
    interval := none
    cacheIgnoreRepeatedEvents := cacheIgnoreRepeatedEvents }

/-- Result of running a message handler once. -/
structure Handled where
  client : BlazeSocket
  emitted : List Emit
  fault : Option String

/-- Go `BlazeSocket.emit`. -/
def BlazeSocket.emit (b : BlazeSocket) (event : String) (data : EventData) : Emit :=
  emitOn b.callbacks event data

/-- Body of the `message` handler of `BlazeSocket` after the shared prefix
(`blaze-socket.go` lines 109 to 136). -/
def BlazeSocket.onDecoded (b : BlazeSocket) (md : MessageData) : Handled :=
  match md.Payload with
  | .obj payloadMap =>
    match mapGet payloadMap "id", mapGet payloadMap "status" with
    | some payloadID, some payloadStatus =>
      match b.cache with
      | some cache =>
        let raw := b.emit ("CB:" ++ md.ID) (.payload md.Payload)
        match payloadID with
        | .str key =>
          match Cache.get cache key with
          | some cachedStatus =>
            match ifaceNe cachedStatus payloadStatus with
            | none => ⟨b, [raw], some "comparing uncomparable type"⟩
            | some true =>
              ⟨{ b with cache := some (Cache.set cache key payloadStatus) },
                [raw, b.emit md.ID (.payload md.Payload)], none⟩
            | some false => ⟨b, [raw], none⟩
          | none =>
            ⟨{ b with cache := some (Cache.set cache key payloadStatus) },
              [raw, b.emit md.ID (.payload md.Payload)], none⟩
        | _ => ⟨b, [raw], some "interface conversion: interface is not string"⟩
      | none => ⟨b, [b.emit md.ID (.payload md.Payload)], none⟩
    | _, _ => ⟨b, [], none⟩
  | _ => ⟨b, [], none⟩

/-- The `message` handler registered by `BlazeSocket.onMessage`. -/
def BlazeSocket.handleMessage (parse : String → Option Json) (b : BlazeSocket) (data : Data) :
    Handled :=
  match decodeFrame parse data with
  | none => ⟨b, [], none⟩
  | some md => b.onDecoded md

/-- Handler calls taking effect one after the other, in the order of the list; the emits
are kept per call.  A fault ends the process, the remaining frames are never handled.
The transport starts one goroutine per inbound frame and the handler takes no lock, so
the code itself does not tie this order to the order of arrival: the list is the order
in which the calls run, not a guarantee of the source. -/
def BlazeSocket.feedDecoded (b : BlazeSocket) : List MessageData → List (List Emit) × BlazeSocket
  | [] => ([], b)
  | md :: rest =>
    match (b.onDecoded md).fault with
    | some _ => ([(b.onDecoded md).emitted], (b.onDecoded md).client)
    | none =>
      (((b.onDecoded md).emitted) :: ((b.onDecoded md).client.feedDecoded rest).1,
        ((b.onDecoded md).client.feedDecoded rest).2)

/-! ## BlazeMessageSocket -/

/-- Fields of `BlazeMessageSocket` other than the transport. -/
structure BlazeMessageSocket where
  callbacks : Registry Nat
  interval : Option Nat

/-- Go `NewBlazeMessageSocket`. -/
def NewBlazeMessageSocket : BlazeMessageSocket :=
  { callbacks := [], interval := none }

/-- Go `BlazeMessageSocket.emit`. -/
def BlazeMessageSocket.emit (b : BlazeMessageSocket) (event : String) (data : EventData) : Emit :=
  emitOn b.callbacks event data

/-- The `message` handler registered by `BlazeMessageSocket.onMessage`: the emits of one
call (the handler changes no field of the client and has no faulting operation). -/
def BlazeMessageSocket.handleMessage (parse : String → Option Json) (b : BlazeMessageSocket)
    (data : Data) : List Emit :=
  match decodeFrame parse data with
  | none => []
  | some md => [b.emit md.ID (.payload md.Payload)]

/-! ## Options -/

/-- Go `ConnectionSocketOpts`. -/
structure ConnectionSocketOpts where
  Host : Option String
  Origin : Option String
  Headers : List (String × String)
  deriving DecidableEq

/-- Go `SocketOptions`; the field `Type` is spelled `Type_`. -/
structure SocketOptions where
  URL : Option String
  Type_ : Option String
  Token : Option String
  Reconnect : Option Bool
  Options : Option ConnectionSocketOpts
  TimeoutPing : Option Int
  deriving DecidableEq

/-- Go `ConnectionSocketOptions`. -/
structure ConnectionSocketOptions where
  URL : Option String
  Options : Option ConnectionSocketOpts
  deriving DecidableEq

/-! ## Wire frames -/

/-- Static table `roomMap` of `BlazeSocket.initOpen`. -/
def roomTable : List (String × String) :=
  [("crash", "crash_room_4"), ("doubles", "double_room_1"),
   ("crash_2", "crash_room_1"), ("crash_neymarjr", "crash_room_3")]

/-- Go `roomMap[socketType]` with the comma-ok form. -/
def roomMap (socketType : String) : Option String :=
  roomTable.lookup socketType

/-- Go `fmt.Sprintf` of the subscribe command. -/
def subscribeMsg (room : String) : String :=
  "420[\"cmd\",\x7b\"id\":\"subscribe\",\"payload\":\x7b\"room\":\"" ++ room ++ "\"\x7d\x7d]"

/-- Go `fmt.Sprintf` of an authenticate command with the given envelope number. -/
def authMsg (envelope : String) (token : String) : String :=
  envelope ++ "[\"cmd\",\x7b\"id\":\"authenticate\",\"payload\":\x7b\"token\":\"" ++ token
    ++ "\"\x7d\x7d]"

/-- Go conversion of an `int` product to `time.Duration` (`int64`, wrapping). -/
def toInt64 (x : Int) : Int :=
  (x + 2 ^ 63) % 2 ^ 64 - 2 ^ 63

/-- Go `time.Duration(timeoutPing) * time.Millisecond`. -/
def pingDuration (timeoutPing : Int) : Int :=
  toInt64 (timeoutPing * 1000000)

/-! ## A BlazeSocket over a NodeConnectionSocket -/

/-- Closures that `BlazeSocket` registers on its transport. -/
inductive Handler where
  | message
  | close (options : SocketOptions)
  deriving DecidableEq

/-- Go `NodeConnectionSocket`; connections are named by numbers. -/
structure NodeConnectionSocket where
  conn : Option Nat
  callbacks : Registry Handler

/-- Go `NewNodeConnectionSocket`. -/
def NewNodeConnectionSocket : NodeConnectionSocket :=
  { conn := none, callbacks := [] }

/-- A `BlazeSocket`, its transport, and what they did so far.

* `tickers`: every ticker made by `initPing`, in creation order; `true` while running.
* `dialed`: connections opened so far.
* `wire`: frames handed to `conn.WriteMessage`, in order.
* `closed`: connections on which `conn.Close()` was called.
* `events`: calls of `BlazeSocket.emit`, in order.
* `scheduled`: goroutines started by a `close` handler that sleep 100 ms and then call
  `b.Connect(options)`; one entry per goroutine.
* `fault`: an unrecovered panic. -/
structure World where
  socket : NodeConnectionSocket
  client : BlazeSocket
  tickers : List Bool
  dialed : Nat
  wire : List String
  closed : List Nat
  events : List Emit
  scheduled : List SocketOptions
  fault : Option String

/-- A new transport and a new client over it. -/
def NewWorld (cacheIgnoreRepeatedEvents : Bool) : World :=
  { socket := NewNodeConnectionSocket
    client := NewBlazeSocket cacheIgnoreRepeatedEvents
    tickers := []
    dialed := 0
    wire := []
    closed := []
    events := []
    scheduled := []
    fault := none }

/-- Go `NodeConnectionSocket.Send`; the error of `conn.WriteMessage` is not modelled. -/
def World.socketSend (w : World) (data : Data) : World × Option String :=
  match w.socket.conn with
  | none => (w, some "missing socket")
  | some _ =>
    match coerceText data with
    | none => (w, some "unsupported data type")
    | some frame => ({ w with wire := w.wire ++ [frame] }, none)

/-- Go `NodeConnectionSocket.Disconnect`; `closeErr` is what `conn.Close()` returns. -/
def World.socketDisconnect (w : World) (closeErr : Option String) : World × Option String :=
  match w.socket.conn with
  | none => (w, some "missing socket")
  | some c =>
    ({ w with socket := { w.socket with conn := none }, closed := w.closed ++ [c] }, closeErr)

/-- Go `if b.interval != nil { b.interval.Stop() }`. -/
def World.stopInterval (w : World) : World :=
  match w.client.interval with
  | none => w
  | some i => { w with tickers := w.tickers.set i false }

/-- Go `b.emit(event, data)` recorded in the world. -/
def World.emit (w : World) (event : String) (data : EventData) : World :=
  { w with events := w.events ++ [w.client.emit event data] }

/-- One closure registered on the transport, run on `data`.  The goroutines launched
by `NodeConnectionSocket.emit` are run one after the other. -/
def World.runHandler (parse : String → Option Json) (w : World) (h : Handler) (data : Data) :
    World :=
  match w.fault with
  | some _ => w
  | none =>
    match h with
    | .message =>
      { w with
        client := (w.client.handleMessage parse data).client
        events := w.events ++ (w.client.handleMessage parse data).emitted
        fault := (w.client.handleMessage parse data).fault }
    | .close options =>
      let w1 := (w.stopInterval.socketDisconnect none).1
      let code : Int := match data with
        | .int n => n
        | _ => 1000
      let reconnect := options.Reconnect.getD false
      let w2 := if reconnect then { w1 with scheduled := w1.scheduled ++ [options] } else w1
      w2.emit "close" (.closeEvent code reconnect)

/-- Go `NodeConnectionSocket.emit`. -/
def World.socketEmit (parse : String → Option Json) (w : World) (event : String) (data : Data) :
    World :=
  (Registry.get w.socket.callbacks event).foldl (fun v h => v.runHandler parse h data) w

/-- Go `NodeConnectionSocket.On`. -/
def World.socketOn (w : World) (event : String) (h : Handler) : World :=
  { w with socket := { w.socket with callbacks := onRegister w.socket.callbacks event h } }

/-- Go `NodeConnectionSocket.Connect`.  `dial` is the error of `url.Parse` or of
`dialer.Dial`, if any; the header set only feeds `dialer.Dial`. -/
def World.socketConnect (parse : String → Option Json) (w : World)
    (options : ConnectionSocketOptions) (dial : Option String) : World × Option String :=
  match options.URL with
  | none => (w, some "missing url")
  | some _ =>
    match dial with
    | some e => (w, some e)
    | none =>
      (World.socketEmit parse
        { w with socket := { w.socket with conn := some w.dialed }, dialed := w.dialed + 1 }
        "open" .other, none)

/-- Go `BlazeSocket.initPing`; `time.NewTicker` panics on a non-positive duration. -/
def World.initPing (w : World) (timeoutPing : Int) : World :=
  if pingDuration timeoutPing ≤ 0 then
    { w with fault := some "non-positive interval for NewTicker" }
  else
    { w with
      tickers := w.tickers ++ [true]
      client := { w.client with interval := some w.tickers.length } }

/-- Go `BlazeSocket.initOpen`. -/
def World.initOpen (w : World) (socketType : String) (token : Option String) : World :=
  match roomMap socketType with
  | none => w.emit "error" (.error "missing type of socket")
  | some room =>
    let w1 := (w.socketSend (.text (subscribeMsg room))).1
    let w2 :=
      match token with
      | none => w1
      | some t =>
        (((w1.socketSend (.text (authMsg "423" t))).1.socketSend
          (.text (authMsg "422" t))).1.socketSend (.text (authMsg "420" t))).1
    w2.emit "subscriptions" (.subscriptions [room])

/-- Go `BlazeSocket.Connect`. -/
def World.Connect (parse : String → Option Json) (w : World) (options : SocketOptions)
    (dial : Option String) : World × Option String :=
  match w.socketConnect parse ⟨options.URL, options.Options⟩ dial with
  | (w1, some err) => (w1, some err)
  | (w1, none) =>
    let w2 := w1.initPing (options.TimeoutPing.getD 10000)
    match w2.fault with
    | some _ => (w2, none)
    | none =>
      let w3 := w2.initOpen (options.Type_.getD "crash") options.Token
      (((w3.socketOn "message" .message).socketOn "close" (.close options)), none)

/-- Go `BlazeSocket.Disconnect`. -/
def World.Disconnect (w : World) (closeErr : Option String) : World × Option String :=
  w.stopInterval.socketDisconnect closeErr

/-- What the caller and the environment do to a client. -/
inductive Input where
  | connect (options : SocketOptions) (dial : Option String)
  | register (event : String) (callback : Nat)
  | disconnect (closeErr : Option String)
  | message (data : Data)
  | closeSignal
  | reconnectNow (dial : Option String)
  | tick (ticker : Nat)

/-- One input processed.

* `connect`, `register`, `disconnect`: the caller's `Connect`, `On` and `Disconnect`.
* `message`, `closeSignal`: the goroutine `listen` emits `message` with the bytes read,
  or `close` with `websocket.CloseGoingAway` after a failed read.
* `reconnectNow`: the oldest scheduled goroutine wakes up and calls `b.Connect(options)`.
* `tick`: a running ticker fires and its goroutine calls `b.socket.Send("2")`.

Nothing runs after a fault. -/
def World.step (parse : String → Option Json) (w : World) (i : Input) : World :=
  match w.fault with
  | some _ => w
  | none =>
    match i with
    | .connect options dial => (w.Connect parse options dial).1
    | .register event callback =>
      { w with client := { w.client with callbacks := onRegister w.client.callbacks event callback } }
    | .disconnect closeErr => (w.Disconnect closeErr).1
    | .message data => w.socketEmit parse "message" data
    | .closeSignal => w.socketEmit parse "close" (.int 1001)
    | .reconnectNow dial =>
      match w.scheduled with
      | [] => w
      | options :: rest => ({ w with scheduled := rest }.Connect parse options dial).1
    | .tick t =>
      if w.tickers.getD t false then (w.socketSend (.text "2")).1 else w

/-- A sequence of inputs processed in order. -/
def World.run (parse : String → Option Json) (w : World) (inputs : List Input) : World :=
  inputs.foldl (World.step parse) w

/-! ## Notions used to state the properties -/

/-- The data-frame pattern in words: one or more digits, the literal `["data",`, optional
whitespace, a body `{...}` free of line feeds, then `]` at the end of the text. -/
def FramePattern (msg body : String) : Prop :=
  ∃ ds ws inner : List Char,
    ds ≠ [] ∧ (∀ c ∈ ds, isDigit c = true) ∧ (∀ c ∈ ws, isSpace c = true) ∧ lineFeed ∉ inner ∧
    msg.toList = ds ++ (dataTag ++ (ws ++ lbrace :: (inner ++ [rbrace, rbracket]))) ∧
    body.toList = lbrace :: (inner ++ [rbrace])

/-- The field `name` of a JSON object: the value of the last member whose key names it.
A key names a field when it equals it up to ASCII case, the way `encoding/json` matches
the keys of an object with the fields of a struct. -/
def fieldOf (name : String) (members : List (String × Json)) : Option Json :=
  (members.reverse.find? (fun kv => foldKey kv.1 = name)).map (fun kv => kv.2)

/-- Nested field of the payload of a decoded frame, if the payload is an object. -/
def payloadField (md : MessageData) (key : String) : Option Json :=
  match md.Payload with
  | .obj members => mapGet members key
  | _ => none

/-- Nested `id` of the payload, when it is a string. -/
def payloadId (md : MessageData) : Option String :=
  match payloadField md "id" with
  | some (.str key) => some key
  | _ => none

/-- The payload carries a string `id` and a `status`. -/
def carriesIdStatus (md : MessageData) : Bool :=
  (payloadId md).isSome && (payloadField md "status").isSome

/-- The payload carries a string `id` and a `status` that is null, a boolean, a number
or a string. -/
def carriesScalarStatus (md : MessageData) : Bool :=
  (payloadId md).isSome &&
    match payloadField md "status" with
    | some s => s.isScalar
    | none => false

/-- No earlier frame has the payload id of `f`. -/
def FirstSighting (earlier : List MessageData) (f : MessageData) : Prop :=
  ∀ g ∈ earlier, payloadId g ≠ payloadId f

/-- The most recent earlier frame with the payload id of `f` carried a different status. -/
def StatusChanged (earlier : List MessageData) (f : MessageData) : Prop :=
  ∃ before g after, earlier = before ++ g :: after ∧ payloadId g = payloadId f ∧
    (∀ h ∈ after, payloadId h ≠ payloadId f) ∧ payloadField g "status" ≠ payloadField f "status"

/-- What `encoding/json` yields on the bodies used in the examples below; any other
text is taken as malformed. -/
def sampleParse (body : String) : Option Json :=
  [ ("\x7b\"payload\":null,\"id\":\"x\"\x7d",
      Json.obj [("payload", .null), ("id", .str "x")]),
    ("\x7b\"payload\":1,\"id\":\"\"\x7d",
      Json.obj [("payload", .num 1), ("id", .str "")]),
    ("\x7b\"payload\":1,\n\"id\":\"x\"\x7d",
      Json.obj [("payload", .num 1), ("id", .str "x")]),
    ("\x7b\"payload\":1,\"id\":\"x\"\x7d",
      Json.obj [("payload", .num 1), ("id", .str "x")]),
    ("\x7b\"payload\":\x7b\"bets\":[]\x7d,\"id\":\"crash.tick-bets\"\x7d",
      Json.obj [("payload", .obj [("bets", .arr [])]), ("id", .str "crash.tick-bets")])
  ].lookup body

/-- The inbound messages of the filtering property: neither text nor bytes; or a text
outside the pattern; or a body that fails to parse; or a `payload` absent or null; or an
`id` absent or empty. -/
def Rejected (parse : String → Option Json) (data : Data) : Prop :=
  coerceText data = none ∨
  ∃ msg, coerceText data = some msg ∧
    ((¬ ∃ body, FramePattern msg body) ∨
     ∃ body, FramePattern msg body ∧
       (parse body = none ∨
        ∃ members, parse body = some (.obj members) ∧
          (fieldOf "payload" members = none ∨ fieldOf "payload" members = some .null ∨
           fieldOf "id" members = none ∨ fieldOf "id" members = some (.str ""))))

/-- Status of the most recent frame of `l` whose payload id is `key`; `init` if none. -/
def lastStatus (key : String) (init : Option Json) (l : List MessageData) : Option Json :=
  l.foldl (fun acc g => if payloadId g = some key then payloadField g "status" else acc) init

/-! ## Sample frames -/

/-- Decoded `double.tick` frame for the entity `E1` with the given status. -/
def doubleTick (status : Json) : MessageData :=
  ⟨.obj [("id", .str "E1"), ("status", status)], "double.tick"⟩

/-- Decoded `crash.tick-bets` frame: its payload has no `status`. -/
def betsFrame : MessageData :=
  ⟨.obj [("bets", .arr [])], "crash.tick-bets"⟩

/-- Body with payload `1` and id `x`. -/
def bodyGood : String := "\x7b\"payload\":1,\"id\":\"x\"\x7d"

/-- Body with a null payload. -/
def bodyNullPayload : String := "\x7b\"payload\":null,\"id\":\"x\"\x7d"

/-- Body with an empty id. -/
def bodyEmptyId : String := "\x7b\"payload\":1,\"id\":\"\"\x7d"

/-- Body with a line feed between its two members. -/
def bodyLineFeed : String := "\x7b\"payload\":1,\n\"id\":\"x\"\x7d"

/-- Text frame around `bodyGood`. -/
def frameGood : String := "42[\"data\", \x7b\"payload\":1,\"id\":\"x\"\x7d]"

/-- Text frame around `bodyNullPayload`. -/
def frameNullPayload : String := "42[\"data\", \x7b\"payload\":null,\"id\":\"x\"\x7d]"

/-- Text frame around `bodyEmptyId`. -/
def frameEmptyId : String := "42[\"data\", \x7b\"payload\":1,\"id\":\"\"\x7d]"

/-- Text frame around `bodyLineFeed`. -/
def frameLineFeed : String := "42[\"data\", \x7b\"payload\":1,\n\"id\":\"x\"\x7d]"

/-- Text frame of a `crash.tick-bets` event. -/
def frameBets : String :=
  "42[\"data\",\x7b\"payload\":\x7b\"bets\":[]\x7d,\"id\":\"crash.tick-bets\"\x7d]"

/-! ## Notions and samples for the session properties -/

/-- No closure is registered on the transport under `open`. -/
def NoOpenHandler (w : World) : Prop :=
  Registry.get w.socket.callbacks "open" = []

/-- A parser that rejects every text: the session examples feed no data frame. -/
def noParse : String → Option Json :=
  fun _ => none

/-- Options with mode `doubles` and reconnect enabled. -/
def reconnectOptions : SocketOptions :=
  ⟨some "wss://api-gaming.blaze.bet.br/replication/?EIO=3&transport=websocket", some "doubles",
    none, some true, none, none⟩

/-- Options with mode `doubles` and a token, no reconnect policy. -/
def tokenOptions : SocketOptions :=
  ⟨some "wss://api-gaming.blaze.bet.br/replication/?EIO=3&transport=websocket", some "doubles",
    some "tok", none, none, none⟩

/-- Options with a mode outside the room table, and a token. -/
def unknownModeOptions : SocketOptions :=
  ⟨some "wss://api-gaming.blaze.bet.br/replication/?EIO=3&transport=websocket",
    some "unknown-mode", some "tok", none, none, none⟩

/-! ## A BlazeMessageSocket over a NodeConnectionSocket -/

/-- Closures that `BlazeMessageSocket` registers on its transport: the one of `initOpen`
(under `open`), of `onMessage` (under `message`) and of `initClose` (under `close`). -/
inductive ChatHandler where
  | subscribe (token : Option String)
  | message
  | close (options : SocketOptions)
  deriving DecidableEq

/-- A `BlazeMessageSocket`, its transport (`conn`, `callbacks`), and what they did so
far; the other fields are those of `World`. -/
structure ChatWorld where
  conn : Option Nat
  callbacks : Registry ChatHandler
  client : BlazeMessageSocket
  tickers : List Bool
  dialed : Nat
  wire : List String
  closed : List Nat
  events : List Emit
  scheduled : List SocketOptions
  fault : Option String

/-- A new transport and a new chat client over it. -/
def NewChatWorld : ChatWorld :=
  { conn := none
    callbacks := []
    client := NewBlazeMessageSocket
    tickers := []
    dialed := 0
    wire := []
    closed := []
    events := []
    scheduled := []
    fault := none }

/-- Go `NodeConnectionSocket.Send`. -/
def ChatWorld.socketSend (w : ChatWorld) (data : Data) : ChatWorld × Option String :=
  match w.conn with
  | none => (w, some "missing socket")
  | some _ =>
    match coerceText data with
    | none => (w, some "unsupported data type")
    | some frame => ({ w with wire := w.wire ++ [frame] }, none)

/-- Go `NodeConnectionSocket.Disconnect`. -/
def ChatWorld.socketDisconnect (w : ChatWorld) (closeErr : Option String) :
    ChatWorld × Option String :=
  match w.conn with
  | none => (w, some "missing socket")
  | some c => ({ w with conn := none, closed := w.closed ++ [c] }, closeErr)

/-- Go `if b.interval != nil { b.interval.Stop() }`. -/
def ChatWorld.stopInterval (w : ChatWorld) : ChatWorld :=
  match w.client.interval with
  | none => w
  | some i => { w with tickers := w.tickers.set i false }

/-- Go `b.emit(event, data)` recorded in the world. -/
def ChatWorld.emit (w : ChatWorld) (event : String) (data : EventData) : ChatWorld :=
  { w with events := w.events ++ [w.client.emit event data] }

/-- The subscribe frame of the chat room, a literal of `BlazeMessageSocket.initOpen`. -/
def chatSubscribeMsg : String :=
  "420[\"cmd\",\x7b\"id\":\"subscribe\",\"payload\":\x7b\"room\":\"chat_room_2\"\x7d\x7d]"

/-- One closure registered on the transport, run on `data`. -/
def ChatWorld.runHandler (parse : String → Option Json) (w : ChatWorld) (h : ChatHandler)
    (data : Data) : ChatWorld :=
  match w.fault with
  | some _ => w
  | none =>
    match h with
    | .subscribe _ =>
      ((w.socketSend (.text chatSubscribeMsg)).1).emit "subscriptions"
        (.subscriptions ["chat_room_2"])
    | .message => { w with events := w.events ++ w.client.handleMessage parse data }
    | .close options =>
      let w1 := (w.stopInterval.socketDisconnect none).1
      let code : Int := match data with
        | .int n => n
        | _ => 1000
      let reconnect := options.Reconnect.getD false
      let w2 := if reconnect then { w1 with scheduled := w1.scheduled ++ [options] } else w1
      w2.emit "close" (.closeEvent code reconnect)

/-- Go `NodeConnectionSocket.emit`: the callbacks registered under `event` at the time
of the call. -/
def ChatWorld.socketEmit (parse : String → Option Json) (w : ChatWorld) (event : String)
    (data : Data) : ChatWorld :=
  (Registry.get w.callbacks event).foldl (fun v h => v.runHandler parse h data) w

/-- Go `NodeConnectionSocket.On`. -/
def ChatWorld.socketOn (w : ChatWorld) (event : String) (h : ChatHandler) : ChatWorld :=
  { w with callbacks := onRegister w.callbacks event h }

/-- Go `NodeConnectionSocket.Connect`. -/
def ChatWorld.socketConnect (parse : String → Option Json) (w : ChatWorld)
    (options : ConnectionSocketOptions) (dial : Option String) : ChatWorld × Option String :=
  match options.URL with
  | none => (w, some "missing url")
  | some _ =>
    match dial with
    | some e => (w, some e)
    | none =>
      (ChatWorld.socketEmit parse { w with conn := some w.dialed, dialed := w.dialed + 1 }
        "open" .other, none)

/-- Go `BlazeMessageSocket.initPing`. -/
def ChatWorld.initPing (w : ChatWorld) (timeoutPing : Int) : ChatWorld :=
  if pingDuration timeoutPing ≤ 0 then
    { w with fault := some "non-positive interval for NewTicker" }
  else
    { w with
      tickers := w.tickers ++ [true]
      client := { w.client with interval := some w.tickers.length } }

/-- Go `BlazeMessageSocket.initOpen`: it only registers a closure under `open`. -/
def ChatWorld.initOpen (w : ChatWorld) (token : Option String) : ChatWorld :=
  w.socketOn "open" (.subscribe token)

/-- Go `BlazeMessageSocket.Connect`. -/
def ChatWorld.Connect (parse : String → Option Json) (w : ChatWorld) (options : SocketOptions)
    (dial : Option String) : ChatWorld × Option String :=
  match w.socketConnect parse ⟨options.URL, options.Options⟩ dial with
  | (w1, some err) => (w1, some err)
  | (w1, none) =>
    let w2 := w1.initPing (options.TimeoutPing.getD 10000)
    match w2.fault with
    | some _ => (w2, none)
    | none =>
      ((((w2.initOpen options.Token).socketOn "message" .message).socketOn "close"
        (.close options)), none)

/-! ## Registration -/

/-- Go `BlazeSocket.On`. -/
def BlazeSocket.On (b : BlazeSocket) (event : String) (callback : Nat) : BlazeSocket :=
  { b with callbacks := onRegister b.callbacks event callback }

/-- Go `BlazeMessageSocket.On`. -/
def BlazeMessageSocket.On (b : BlazeMessageSocket) (event : String) (callback : Nat) :
    BlazeMessageSocket :=
  { b with callbacks := onRegister b.callbacks event callback }

/-- A sequence of calls `On(event, callback)` on a `BlazeSocket`, in order. -/
def BlazeSocket.registerAll (b : BlazeSocket) (regs : List (String × Nat)) : BlazeSocket :=
  regs.foldl (fun c r => c.On r.1 r.2) b

/-- A sequence of calls `On(event, callback)` on a `BlazeMessageSocket`, in order. -/
def BlazeMessageSocket.registerAll (b : BlazeMessageSocket) (regs : List (String × Nat)) :
    BlazeMessageSocket :=
  regs.foldl (fun c r => c.On r.1 r.2) b

/-- The callbacks registered under `event` by a sequence of registrations, in
registration order. -/
def registeredFor (regs : List (String × Nat)) (event : String) : List Nat :=
  (regs.filter (fun r => r.1 = event)).map (fun r => r.2)

/-! ## Sample frames with an id or a status that is not a scalar -/

/-- Decoded `double.tick` frame whose payload id is the number 7. -/
def numberIdTick : MessageData :=
  ⟨.obj [("id", .num 7), ("status", .str "waiting")], "double.tick"⟩

/-- Text frame of `numberIdTick`. -/
def frameNumberId : String :=
  "42[\"data\",\x7b\"payload\":\x7b\"id\":7,\"status\":\"waiting\"\x7d,\"id\":\"double.tick\"\x7d]"

/-- Text frame of a `double.tick` for the entity `E1` whose status is an empty object. -/
def frameObjectStatus : String :=
  "42[\"data\",\x7b\"payload\":\x7b\"id\":\"E1\",\"status\":\x7b\x7d\x7d,\"id\":\"double.tick\"\x7d]"

/-- What `encoding/json` yields on the bodies of `frameNumberId` and `frameObjectStatus`. -/
def tickParse (body : String) : Option Json :=
  [ ("\x7b\"payload\":\x7b\"id\":7,\"status\":\"waiting\"\x7d,\"id\":\"double.tick\"\x7d",
      Json.obj [("payload", .obj [("id", .num 7), ("status", .str "waiting")]),
        ("id", .str "double.tick")]),
    ("\x7b\"payload\":\x7b\"id\":\"E1\",\"status\":\x7b\x7d\x7d,\"id\":\"double.tick\"\x7d",
      Json.obj [("payload", .obj [("id", .str "E1"), ("status", .obj [])]),
        ("id", .str "double.tick")])
  ].lookup body

/-- Options without an address. -/
def missingUrlOptions : SocketOptions :=
  ⟨none, some "doubles", some "tok", some true, none, none⟩

/-! ## Sample frames for members read up to case, array statuses, a zero interval -/

/-- Body with a member `ID` holding a number before the member `id`. -/
def bodyIdTypeError : String := "\x7b\"ID\":5,\"id\":\"x\",\"payload\":1\x7d"

/-- Text frame around `bodyIdTypeError`. -/
def frameIdTypeError : String := "42[\"data\", \x7b\"ID\":5,\"id\":\"x\",\"payload\":1\x7d]"

/-- Body with a member `id` of value `x` and a member `ID` of value `y`. -/
def bodyIdTwice : String := "\x7b\"id\":\"x\",\"ID\":\"y\",\"payload\":1\x7d"

/-- Text frame around `bodyIdTwice`. -/
def frameIdTwice : String := "42[\"data\", \x7b\"id\":\"x\",\"ID\":\"y\",\"payload\":1\x7d]"

/-- Body of a `double.tick` whose event name is under the key `ID`. -/
def bodyUpperId : String :=
  "\x7b\"payload\":\x7b\"id\":\"E1\",\"status\":\"waiting\"\x7d,\"ID\":\"double.tick\"\x7d"

/-- Text frame around `bodyUpperId`. -/
def frameUpperId : String :=
  "42[\"data\", \x7b\"payload\":\x7b\"id\":\"E1\",\"status\":\"waiting\"\x7d,\"ID\":\"double.tick\"\x7d]"

/-- What `encoding/json` yields on `bodyIdTypeError`, `bodyIdTwice` and `bodyUpperId`,
members in document order. -/
def caseParse (body : String) : Option Json :=
  [ ("\x7b\"ID\":5,\"id\":\"x\",\"payload\":1\x7d",
      Json.obj [("ID", .num 5), ("id", .str "x"), ("payload", .num 1)]),
    ("\x7b\"id\":\"x\",\"ID\":\"y\",\"payload\":1\x7d",
      Json.obj [("id", .str "x"), ("ID", .str "y"), ("payload", .num 1)]),
    ("\x7b\"payload\":\x7b\"id\":\"E1\",\"status\":\"waiting\"\x7d,\"ID\":\"double.tick\"\x7d",
      Json.obj [("payload", .obj [("id", .str "E1"), ("status", .str "waiting")]),
        ("ID", .str "double.tick")])
  ].lookup body

/-- Text frame of a `double.tick` for the entity `E1` whose status is an empty array. -/
def frameArrayStatus : String :=
  "42[\"data\",\x7b\"payload\":\x7b\"id\":\"E1\",\"status\":[]\x7d,\"id\":\"double.tick\"\x7d]"

/-- Text frame of a `double.tick` for the entity `E1` with the status `complete`. -/
def frameCompleteStatus : String :=
  "42[\"data\",\x7b\"payload\":\x7b\"id\":\"E1\",\"status\":\"complete\"\x7d,\"id\":\"double.tick\"\x7d]"

/-- What `encoding/json` yields on the bodies of `frameArrayStatus` and
`frameCompleteStatus`. -/
def arrayParse (body : String) : Option Json :=
  [ ("\x7b\"payload\":\x7b\"id\":\"E1\",\"status\":[]\x7d,\"id\":\"double.tick\"\x7d",
      Json.obj [("payload", .obj [("id", .str "E1"), ("status", .arr [])]),
        ("id", .str "double.tick")]),
    ("\x7b\"payload\":\x7b\"id\":\"E1\",\"status\":\"complete\"\x7d,\"id\":\"double.tick\"\x7d",
      Json.obj [("payload", .obj [("id", .str "E1"), ("status", .str "complete")]),
        ("id", .str "double.tick")])
  ].lookup body

/-- Options with a mode outside the room table and a keepalive interval of zero. -/
def zeroPingOptions : SocketOptions :=
  ⟨some "wss://api-gaming.blaze.bet.br/replication/?EIO=3&transport=websocket",
    some "unknown-mode", some "tok", none, none, some 0⟩

/-! # Properties -/

/-! ## The frame pattern -/

theorem takeWhile_run {p : Char → Bool} (ds : List Char) (x : Char) (rest : List Char)
    (hds : ∀ c ∈ ds, p c = true) (hx : p x = false) :
    (ds ++ x :: rest).takeWhile p = ds ∧ (ds ++ x :: rest).dropWhile p = x :: rest := by
  induction ds with
  | nil => simp [List.takeWhile, List.dropWhile, hx]
  | cons d ds ih =>
    have hd : p d = true := hds d (by simp)
    have h := ih (fun c hc => hds c (by simp [hc]))
    simp [List.takeWhile, List.dropWhile, hd, h]

theorem dropLiteral_append (lit r : List Char) : dropLiteral lit (lit ++ r) = some r := by
  induction lit with
  | nil => cases r <;> simp [dropLiteral]
  | cons t ts ih => simp [dropLiteral, ih]

theorem dropLiteral_some (lit : List Char) :
    ∀ cs r : List Char, dropLiteral lit cs = some r → cs = lit ++ r := by
  induction lit with
  | nil => intro cs r h; cases cs <;> simp [dropLiteral] at h <;> simp [h]
  | cons t ts ih =>
    intro cs r h
    cases cs with
    | nil => simp [dropLiteral] at h
    | cons c cs =>
      simp only [dropLiteral] at h
      split at h
      · next htc => rw [htc, ih cs r h]; rfl
      · simp at h

theorem matchBody_form (inner : List Char) (h : lineFeed ∉ inner) :
    matchBody (lbrace :: (inner ++ [rbrace, rbracket])) = some (lbrace :: (inner ++ [rbrace])) := by
  simp [matchBody, h]

theorem matchBody_some (r b : List Char) (h : matchBody r = some b) :
    ∃ inner, lineFeed ∉ inner ∧ r = lbrace :: (inner ++ [rbrace, rbracket]) ∧
      b = lbrace :: (inner ++ [rbrace]) := by
  cases r with
  | nil => simp [matchBody] at h
  | cons c rest =>
    simp only [matchBody] at h
    split at h
    · next hc =>
      split at h
      · next c1 c2 xr hrev =>
        split at h
        · next hcond =>
          refine ⟨xr.reverse, by simpa using hcond.2.2, ?_, by simpa using h.symm⟩
          have : rest = (c1 :: c2 :: xr).reverse := by rw [← hrev, List.reverse_reverse]
          rw [this, hc, hcond.1, hcond.2.1]; simp
        · simp at h
      · simp at h
    · simp at h

theorem dataTag_head : ∃ tl, dataTag = Char.ofNat 91 :: tl := ⟨_, rfl⟩

/-- The matcher accepts exactly the texts of the pattern, and returns the body. -/
theorem matchDataFrame_iff (msg body : String) :
    matchDataFrame msg = some body ↔ FramePattern msg body := by
  constructor
  · intro h
    unfold matchDataFrame at h
    simp only at h
    split at h
    · simp at h
    · next hne =>
      split at h
      · simp at h
      · next r hr =>
        have h1 := dropLiteral_some _ _ _ hr
        rcases hm : matchBody (List.dropWhile isSpace r) with _ | b
        · simp [hm] at h
        · simp [hm] at h
          obtain ⟨inner, hlf, hrest, hb⟩ := matchBody_some _ _ hm
          refine ⟨msg.toList.takeWhile isDigit, r.takeWhile isSpace, inner, hne, ?_, ?_, hlf, ?_, ?_⟩
          · intro c hc; exact (List.mem_takeWhile_imp hc)
          · intro c hc; exact (List.mem_takeWhile_imp hc)
          · rw [← hrest, List.takeWhile_append_dropWhile, ← h1, List.takeWhile_append_dropWhile]
          · rw [← h, hb]; rfl
  · rintro ⟨ds, ws, inner, hne, hds, hws, hlf, hmsg, hbody⟩
    obtain ⟨tl, htl⟩ := dataTag_head
    have hd := takeWhile_run (p := isDigit) ds (Char.ofNat 91)
      (tl ++ (ws ++ lbrace :: (inner ++ [rbrace, rbracket]))) hds (by decide)
    have hs := takeWhile_run (p := isSpace) ws lbrace (inner ++ [rbrace, rbracket]) hws (by decide)
    have hmsg2 : msg.toList =
        ds ++ Char.ofNat 91 :: (tl ++ (ws ++ lbrace :: (inner ++ [rbrace, rbracket]))) := by
      rw [hmsg, htl]; rfl
    unfold matchDataFrame
    simp only [hmsg2, hd.1, hd.2, hne, if_false]
    have : Char.ofNat 91 :: (tl ++ (ws ++ lbrace :: (inner ++ [rbrace, rbracket]))) =
        dataTag ++ (ws ++ lbrace :: (inner ++ [rbrace, rbracket])) := by rw [htl]; rfl
    rw [this, dropLiteral_append]
    simp only [hs.2, matchBody_form inner hlf, Option.map_some]
    rw [← hbody]; rfl

/-! ## Binding of the members into `messageData` -/

theorem bindMembers_snoc (l : List (String × Json)) (kv : String × Json) :
    bindMembers (l ++ [kv]) = bindMember (bindMembers l) kv := by
  simp [bindMembers, List.foldl_append]

theorem fieldOf_snoc (name : String) (l : List (String × Json)) (kv : String × Json) :
    fieldOf name (l ++ [kv]) = if foldKey kv.1 = name then some kv.2 else fieldOf name l := by
  unfold fieldOf
  simp only [List.reverse_append, List.reverse_cons, List.reverse_nil, List.nil_append,
    List.singleton_append, List.find?_cons]
  by_cases h : foldKey kv.1 = name <;> simp [h]

theorem id_ne_payload : ("id" : String) ≠ "payload" := by decide

theorem bind_payload (members : List (String × Json)) :
    (bindMembers members).1.Payload = (fieldOf "payload" members).getD .null := by
  induction members using List.reverseRecOn with
  | nil => rfl
  | append_singleton l kv ih =>
    rw [bindMembers_snoc, fieldOf_snoc]
    unfold bindMember
    by_cases h : foldKey kv.1 = "payload"
    · simp [h]
    · simp only [h, if_false]
      split
      · split <;> simp [ih]
      · simp [ih]

theorem bind_id_absent (members : List (String × Json)) (h : fieldOf "id" members = none) :
    (bindMembers members).1.ID = "" := by
  induction members using List.reverseRecOn with
  | nil => rfl
  | append_singleton l kv ih =>
    rw [fieldOf_snoc] at h
    by_cases hk : foldKey kv.1 = "id"
    · simp [hk] at h
    · simp only [hk, if_false] at h
      rw [bindMembers_snoc]
      unfold bindMember
      by_cases hp : foldKey kv.1 = "payload"
      · simp [hp, ih h]
      · simp [hp, hk, ih h]

theorem bind_id_last (members : List (String × Json)) (s : String)
    (h : fieldOf "id" members = some (.str s)) : (bindMembers members).1.ID = s := by
  induction members using List.reverseRecOn with
  | nil => simp [fieldOf] at h
  | append_singleton l kv ih =>
    rw [fieldOf_snoc] at h
    rw [bindMembers_snoc]
    unfold bindMember
    by_cases hk : foldKey kv.1 = "id"
    · have hp : foldKey kv.1 ≠ "payload" := by rw [hk]; exact id_ne_payload
      simp only [hk, if_true] at h
      have hv : kv.2 = .str s := by simpa using h
      simp [hp, hk, hv]
    · simp only [hk, if_false] at h
      by_cases hp : foldKey kv.1 = "payload"
      · simp [hp, ih h]
      · simp [hp, hk, ih h]

theorem bind_ok (members : List (String × Json))
    (h : ∀ kv ∈ members, foldKey kv.1 = "id" → ∃ s, kv.2 = .str s) :
    (bindMembers members).2 = false := by
  induction members using List.reverseRecOn with
  | nil => rfl
  | append_singleton l kv ih =>
    have ihl := ih (fun x hx => h x (by simp [hx]))
    rw [bindMembers_snoc]
    unfold bindMember
    by_cases hp : foldKey kv.1 = "payload"
    · simp [hp, ihl]
    · by_cases hk : foldKey kv.1 = "id"
      · obtain ⟨s, hs⟩ := h kv (by simp) hk
        simp [hp, hk, hs, ihl]
      · simp [hp, hk, ihl]

theorem decode_rejected (parse : String → Option Json) (data : Data) (h : Rejected parse data) :
    decodeFrame parse data = none := by
  unfold decodeFrame
  rcases h with h | ⟨msg, hmsg, h⟩
  · simp [h]
  · simp only [hmsg]
    rcases h with h | ⟨body, hpat, h⟩
    · have : matchDataFrame msg = none := by
        cases hm : matchDataFrame msg with
        | none => rfl
        | some body => exact absurd ⟨body, (matchDataFrame_iff msg body).1 hm⟩ h
      simp [this]
    · have hm := (matchDataFrame_iff msg body).2 hpat
      simp only [hm]
      unfold unmarshalMessageData
      rcases h with h | ⟨members, hparse, h⟩
      · simp [h]
      · simp only [hparse]
        by_cases hflag : (bindMembers members).2 = true
        · simp [hflag]
        · simp only [hflag]
          have hP := bind_payload members
          rcases h with h | h | h | h
          · rw [h] at hP; simp at hP; simp [hP]
          · rw [h] at hP; simp at hP; simp [hP]
          · have hI := bind_id_absent members h
            simp [hI]; split <;> rfl
          · have hI := bind_id_last members "" h
            simp [hI]; split <;> rfl

/-! ## Filtering and decoding -/

/-- Claim C4 (amended): a message that is neither text nor bytes, or whose text is
outside the data-frame pattern (body free of line feeds), or whose body fails to parse,
or whose `payload` is absent or null, or whose `id` is absent or empty, a member being
the `payload` or the `id` when its key equals that name up to ASCII letter case, makes
the `message` handler of both clients emit no event; the `BlazeSocket` (its dedup cache
included) is unchanged and nothing faults. -/
theorem rejected_message_is_silent (parse : String → Option Json) (b : BlazeSocket)
    (m : BlazeMessageSocket) (data : Data) (h : Rejected parse data) :
    (b.handleMessage parse data).emitted = [] ∧ (b.handleMessage parse data).client = b ∧
      (b.handleMessage parse data).fault = none ∧ m.handleMessage parse data = [] := by
  have hd := decode_rejected parse data h
  simp [BlazeSocket.handleMessage, BlazeMessageSocket.handleMessage, hd]

/-- Claim C3 (amended): for a text or bytes message in the data-frame pattern (digits,
the tag, optional whitespace, a body free of line feeds) whose body is a JSON object in
which, member keys being read up to ASCII letter case, every member named `id` holds a
string and the last of them a non-empty string `i`, and the last member named `payload`
holds a non-null value `p`: the shared decoding stage yields exactly the pair of `i` and
`p`, and `BlazeMessageSocket` emits exactly one event, named `i` and carrying `p`. -/
theorem well_formed_frame_decoded (parse : String → Option Json) (m : BlazeMessageSocket)
    (data : Data) (msg body : String) (members : List (String × Json)) (p : Json) (i : String)
    (hdata : coerceText data = some msg) (hpat : FramePattern msg body)
    (hparse : parse body = some (.obj members))
    (hp : fieldOf "payload" members = some p) (hpn : p ≠ .null)
    (hidstr : ∀ kv ∈ members, foldKey kv.1 = "id" → ∃ s, kv.2 = .str s)
    (hid : fieldOf "id" members = some (.str i)) (hine : i ≠ "") :
    decodeFrame parse data = some ⟨p, i⟩ ∧
      m.handleMessage parse data = [m.emit i (.payload p)] := by
  have hm := (matchDataFrame_iff msg body).2 hpat
  have hP := bind_payload members
  rw [hp] at hP
  have hI := bind_id_last members i hid
  have hF := bind_ok members hidstr
  have hmd : (bindMembers members).1 = ⟨p, i⟩ := by
    cases hb : (bindMembers members).1 with
    | mk P I => rw [hb] at hP hI; simp at hP hI; rw [hP, hI]
  have hdec : decodeFrame parse data = some ⟨p, i⟩ := by
    unfold decodeFrame
    simp only [hdata, hm]
    unfold unmarshalMessageData
    simp only [hparse, hF, hmd]
    cases p <;> simp_all
  exact ⟨hdec, by simp [BlazeMessageSocket.handleMessage, hdec]⟩

/-- Claim C2 (amended): whatever the mode, for a decoded data frame whose payload lacks
the nested `id` or the nested `status` (or is not an object), the `message` handler of
`BlazeSocket` drops the event: it emits nothing, neither the named event nor the raw
one, changes nothing in the client, and does not fault. -/
theorem frame_without_id_or_status_dropped (parse : String → Option Json) (b : BlazeSocket)
    (data : Data) (md : MessageData) (hdec : decodeFrame parse data = some md)
    (hlack : payloadField md "id" = none ∨ payloadField md "status" = none) :
    (b.handleMessage parse data).emitted = [] ∧ (b.handleMessage parse data).client = b ∧
      (b.handleMessage parse data).fault = none := by
  unfold BlazeSocket.handleMessage
  simp only [hdec]
  unfold BlazeSocket.onDecoded
  unfold payloadField at hlack
  cases hP : md.Payload with
  | obj payloadMap =>
    rw [hP] at hlack
    simp only at hlack
    rcases hlack with h | h
    · simp [h]
    · cases hi : mapGet payloadMap "id" <;> simp [h]
  | _ => simp

/-! ## Dedup -/

theorem ifaceNe_scalar (c s : Json) (hs : s.isScalar = true) :
    (ifaceNe c s = some false ∧ c = s) ∨ (ifaceNe c s = some true ∧ c ≠ s) := by
  cases c <;> cases s <;> simp [ifaceNe, Json.isScalar] at hs ⊢
  all_goals (rename_i a b; by_cases h : a = b <;> simp [h])

theorem Cache.get_set_same (c : Cache) (k : String) (v : Json) :
    Cache.get (Cache.set c k v) k = some v := by
  simp [Cache.get, Cache.set, List.lookup]

theorem lookup_filter_ne (c : List (String × Json)) (k k2 : String) (h : k2 ≠ k) :
    List.lookup k2 (c.filter (fun e => e.1 ≠ k)) = List.lookup k2 c := by
  induction c with
  | nil => rfl
  | cons e rest ih =>
    rw [List.filter_cons]
    by_cases he : e.1 = k
    · have hk : (k2 == e.1) = false := by rw [he]; simpa using h
      simp only [he, ne_eq, not_true_eq_false, decide_False, Bool.false_eq_true, if_false]
      rw [List.lookup_cons, hk]
      simpa [he] using ih
    · have hd : decide (e.1 ≠ k) = true := by simpa using he
      rw [if_pos hd, List.lookup_cons, List.lookup_cons, ih]

theorem Cache.get_set_other (c : Cache) (k k2 : String) (v : Json) (h : k2 ≠ k) :
    Cache.get (Cache.set c k v) k2 = Cache.get c k2 := by
  have hne : (k2 == k) = false := by simpa using h
  unfold Cache.get Cache.set
  rw [List.lookup_cons, hne]
  exact lookup_filter_ne c k k2 h

theorem scalar_frame_fields (f : MessageData) (h : carriesScalarStatus f = true) :
    ∃ members key s, f.Payload = .obj members ∧ mapGet members "id" = some (.str key) ∧
      mapGet members "status" = some s ∧ s.isScalar = true ∧ payloadId f = some key ∧
      payloadField f "status" = some s := by
  unfold carriesScalarStatus at h
  simp only [Bool.and_eq_true] at h
  obtain ⟨h1, h2⟩ := h
  cases hP : f.Payload with
  | obj members =>
    have hpf : ∀ k, payloadField f k = mapGet members k := by intro k; simp [payloadField, hP]
    cases hst : payloadField f "status" with
    | none => simp [hst] at h2
    | some s =>
      simp only [hst] at h2
      cases hid : payloadField f "id" with
      | none => simp [payloadId, hid] at h1
      | some j =>
        cases j with
        | str key =>
          exact ⟨members, key, s, rfl, by rw [← hpf, hid], by rw [← hpf, hst], h2,
            by simp [payloadId, hid], rfl⟩
        | _ => simp [payloadId, hid] at h1
  | _ => simp [payloadId, payloadField, hP] at h1

theorem onDecoded_scalar (b : BlazeSocket) (c : Cache) (f : MessageData) (key : String) (s : Json)
    (hc : b.cache = some c) (hf : carriesScalarStatus f = true)
    (hid : payloadId f = some key) (hs : payloadField f "status" = some s) :
    (Cache.get c key = some s →
      b.onDecoded f = ⟨b, [b.emit ("CB:" ++ f.ID) (.payload f.Payload)], none⟩) ∧
    (Cache.get c key ≠ some s →
      b.onDecoded f = ⟨{ b with cache := some (Cache.set c key s) },
        [b.emit ("CB:" ++ f.ID) (.payload f.Payload), b.emit f.ID (.payload f.Payload)], none⟩) := by
  obtain ⟨members, key2, s2, hP, hmi, hms, hsc, hid2, hs2⟩ := scalar_frame_fields f hf
  have hk : key2 = key := by rw [hid2] at hid; simpa using hid
  have hss : s2 = s := by rw [hs2] at hs; simpa using hs
  subst hk; subst hss
  unfold BlazeSocket.onDecoded
  simp only [hP, hmi, hms, hc]
  cases hg : Cache.get c key2 with
  | none => simp
  | some cached =>
    rcases ifaceNe_scalar cached s2 hsc with ⟨h1, h2⟩ | ⟨h1, h2⟩
    · subst h2; simp [h1]
    · simp [h1, h2]
theorem onDecoded_scalar_step (b : BlazeSocket) (c0 : Cache) (g : MessageData)
    (hc : b.cache = some c0) (hg : carriesScalarStatus g = true) :
    ∃ c1 e, b.onDecoded g = ⟨{ b with cache := some c1 }, e, none⟩ ∧
      ∀ key, Cache.get c1 key =
        (if payloadId g = some key then payloadField g "status" else Cache.get c0 key) := by
  obtain ⟨members, k, s, _, _, _, _, hid, hs⟩ := scalar_frame_fields g hg
  have hstep := onDecoded_scalar b c0 g k s hc hg hid hs
  by_cases hget : Cache.get c0 k = some s
  · refine ⟨c0, [b.emit ("CB:" ++ g.ID) (.payload g.Payload)], ?_, ?_⟩
    · rw [hstep.1 hget]
      cases b
      simp only at hc
      subst hc
      rfl
    · intro key
      by_cases hk : k = key
      · subst hk; simp [hid, hs, hget]
      · simp [hid, hk]
  · refine ⟨Cache.set c0 k s, [b.emit ("CB:" ++ g.ID) (.payload g.Payload),
      b.emit g.ID (.payload g.Payload)], hstep.2 hget, ?_⟩
    intro key
    by_cases hk : k = key
    · subst hk; simp [hid, hs, Cache.get_set_same]
    · have hk2 : key ≠ k := fun h => hk h.symm
      simp [hid, hk, Cache.get_set_other c0 k key s hk2]

theorem feed_position (pre : List MessageData) :
    ∀ (b : BlazeSocket) (c0 : Cache) (f : MessageData) (post : List MessageData) (key : String)
      (s : Json),
      b.cache = some c0 → (∀ g ∈ pre ++ f :: post, carriesScalarStatus g = true) →
      payloadId f = some key → payloadField f "status" = some s →
      (lastStatus key (Cache.get c0 key) pre = some s →
        (b.feedDecoded (pre ++ f :: post)).1[pre.length]? =
          some [emitOn b.callbacks ("CB:" ++ f.ID) (.payload f.Payload)]) ∧
      (lastStatus key (Cache.get c0 key) pre ≠ some s →
        (b.feedDecoded (pre ++ f :: post)).1[pre.length]? =
          some [emitOn b.callbacks ("CB:" ++ f.ID) (.payload f.Payload),
            emitOn b.callbacks f.ID (.payload f.Payload)]) := by
  induction pre with
  | nil =>
    intro b c0 f post key s hc hall hid hs
    have hf : carriesScalarStatus f = true := hall f (by simp)
    have hstep := onDecoded_scalar b c0 f key s hc hf hid hs
    constructor
    · intro h
      have h2 : Cache.get c0 key = some s := h
      simp [BlazeSocket.feedDecoded, hstep.1 h2, BlazeSocket.emit]
    · intro h
      have h2 : Cache.get c0 key ≠ some s := h
      simp [BlazeSocket.feedDecoded, hstep.2 h2, BlazeSocket.emit]
  | cons g rest ih =>
    intro b c0 f post key s hc hall hid hs
    have hg : carriesScalarStatus g = true := hall g (by simp)
    obtain ⟨c1, e, hon, hc1⟩ := onDecoded_scalar_step b c0 g hc hg
    have hrest : ∀ x ∈ rest ++ f :: post, carriesScalarStatus x = true :=
      fun x hx => hall x (by simp at hx ⊢; exact Or.inr hx)
    have ih2 := ih { b with cache := some c1 } c1 f post key s rfl hrest hid hs
    have hfeed : (b.feedDecoded ((g :: rest) ++ f :: post)).1[(g :: rest).length]? =
        ({ b with cache := some c1 }.feedDecoded (rest ++ f :: post)).1[rest.length]? := by
      simp [BlazeSocket.feedDecoded, hon]
    have hlast : lastStatus key (Cache.get c0 key) (g :: rest) =
        lastStatus key (Cache.get c1 key) rest := by
      rw [hc1 key]; rfl
    rw [hfeed, hlast]
    exact ih2

theorem lastStatus_no_match (key : String) (l : List MessageData) :
    ∀ init, (∀ h ∈ l, payloadId h ≠ some key) → lastStatus key init l = init := by
  induction l with
  | nil => intro init _; rfl
  | cons g rest ih =>
    intro init hno
    have hg : payloadId g ≠ some key := hno g (by simp)
    have : lastStatus key init (g :: rest) = lastStatus key init rest := by
      simp [lastStatus, List.foldl, hg]
    rw [this]
    exact ih init (fun h hh => hno h (by simp [hh]))

theorem lastStatus_append (key : String) (init : Option Json) (l1 l2 : List MessageData) :
    lastStatus key init (l1 ++ l2) = lastStatus key (lastStatus key init l1) l2 := by
  simp [lastStatus, List.foldl_append]

theorem lastStatus_decomp (key : String) (init : Option Json) (before after : List MessageData)
    (g : MessageData) (hg : payloadId g = some key) (hafter : ∀ h ∈ after, payloadId h ≠ some key) :
    lastStatus key init (before ++ g :: after) = payloadField g "status" := by
  rw [lastStatus_append]
  have : lastStatus key (lastStatus key init before) (g :: after) =
      lastStatus key (payloadField g "status") after := by
    simp [lastStatus, List.foldl, hg]
  rw [this]
  exact lastStatus_no_match key after _ hafter

theorem last_match_decomp (key : String) (l : List MessageData) :
    (∀ g ∈ l, payloadId g ≠ some key) ∨
      ∃ before g after, l = before ++ g :: after ∧ payloadId g = some key ∧
        ∀ h ∈ after, payloadId h ≠ some key := by
  induction l with
  | nil => left; simp
  | cons x rest ih =>
    rcases ih with hno | ⟨before, g, after, hl, hg, hafter⟩
    · by_cases hx : payloadId x = some key
      · right; exact ⟨[], x, rest, rfl, hx, hno⟩
      · left
        intro g hgm
        rcases List.mem_cons.1 hgm with h | h
        · rw [h]; exact hx
        · exact hno g h
    · right; exact ⟨x :: before, g, after, by rw [hl]; rfl, hg, hafter⟩

/-- Dedup decisions when the handler calls run one after the other (`feedDecoded`), in
dedup mode with the cache initially empty, on frames whose payloads carry a string `id`
and a `status` that is null, a boolean, a number or a string: at every position the
handler emits the raw event `CB:` + event name, and after it the named event exactly
when no earlier call had the same payload id or the most recent earlier call with that
id carried a different status. -/
theorem dedup_emits_on_first_sighting_or_change (b : BlazeSocket)
    (pre post : List MessageData) (f : MessageData)
    (hcache : b.cache = some [])
    (hall : ∀ g ∈ pre ++ f :: post, carriesScalarStatus g = true) :
    ((FirstSighting pre f ∨ StatusChanged pre f) →
      (b.feedDecoded (pre ++ f :: post)).1[pre.length]? =
        some [b.emit ("CB:" ++ f.ID) (.payload f.Payload), b.emit f.ID (.payload f.Payload)]) ∧
    (¬ (FirstSighting pre f ∨ StatusChanged pre f) →
      (b.feedDecoded (pre ++ f :: post)).1[pre.length]? =
        some [b.emit ("CB:" ++ f.ID) (.payload f.Payload)]) := by
  have hf : carriesScalarStatus f = true := hall f (by simp)
  obtain ⟨_, key, s, _, _, _, _, hid, hs⟩ := scalar_frame_fields f hf
  have hpos := feed_position pre b [] f post key s hcache hall hid hs
  have hget : Cache.get [] key = none := rfl
  rw [hget] at hpos
  have hiff : lastStatus key none pre = some s ↔ ¬ (FirstSighting pre f ∨ StatusChanged pre f) := by
    rcases last_match_decomp key pre with hno | ⟨before, g, after, hl, hg, hafter⟩
    · have h1 : lastStatus key none pre = none := lastStatus_no_match key pre none hno
      have h2 : FirstSighting pre f := by
        intro g hgm; rw [hid]; exact hno g hgm
      constructor
      · intro h; rw [h1] at h; cases h
      · intro h; exact absurd (Or.inl h2) h
    · have h1 : lastStatus key none pre = payloadField g "status" := by
        rw [hl]; exact lastStatus_decomp key none before after g hg hafter
      constructor
      · intro h hcond
        rcases hcond with hfirst | ⟨before2, g2, after2, hl2, hg2, hafter2, hne⟩
        · exact hfirst g (by rw [hl]; simp) (by rw [hg, hid])
        · have h3 : lastStatus key none pre = payloadField g2 "status" := by
            rw [hl2]
            exact lastStatus_decomp key none before2 after2 g2 (by rw [hg2, hid])
              (fun h hh => by rw [← hid]; exact hafter2 h hh)
          rw [h3] at h
          exact hne (by rw [h, hs])
      · intro hcond
        by_contra hne
        apply hcond
        right
        refine ⟨before, g, after, hl, by rw [hg, hid], ?_, ?_⟩
        · intro h hh; rw [hid]; exact hafter h hh
        · intro heq; apply hne; rw [h1, heq, hs]
  constructor
  · intro hcond
    have : lastStatus key none pre ≠ some s := fun h => (hiff.1 h) hcond
    simpa [BlazeSocket.emit] using hpos.2 this
  · intro hcond
    simpa [BlazeSocket.emit] using hpos.1 (hiff.2 hcond)

/-- The dedup decisions on `waiting, rolling, rolling, complete`: the second `rolling`
frame is neither a first sighting nor a change, only the raw event is emitted. -/
theorem dedup_emits_on_first_sighting_or_change_witness :
    (NewBlazeSocket true).cache = some [] ∧
    (∀ g ∈ [doubleTick (.str "waiting"), doubleTick (.str "rolling")] ++
        doubleTick (.str "rolling") :: [doubleTick (.str "complete")],
      carriesScalarStatus g = true) ∧
    ¬ (FirstSighting [doubleTick (.str "waiting"), doubleTick (.str "rolling")]
          (doubleTick (.str "rolling")) ∨
        StatusChanged [doubleTick (.str "waiting"), doubleTick (.str "rolling")]
          (doubleTick (.str "rolling"))) ∧
    ((NewBlazeSocket true).feedDecoded
        ([doubleTick (.str "waiting"), doubleTick (.str "rolling")] ++
          doubleTick (.str "rolling") :: [doubleTick (.str "complete")])).1[2]? =
      some [(NewBlazeSocket true).emit "CB:double.tick"
        (.payload (doubleTick (.str "rolling")).Payload)] :=
  have hnot : ¬ (FirstSighting [doubleTick (.str "waiting"), doubleTick (.str "rolling")]
          (doubleTick (.str "rolling")) ∨
        StatusChanged [doubleTick (.str "waiting"), doubleTick (.str "rolling")]
          (doubleTick (.str "rolling"))) := by
    rintro (h | ⟨before, g, after, hl, _, hafter, hne⟩)
    · exact h (doubleTick (.str "waiting")) (by simp) rfl
    · rcases before with _ | ⟨x, _ | ⟨y, _ | ⟨z, t⟩⟩⟩
      · simp at hl
        obtain ⟨_, h2⟩ := hl
        exact hafter (doubleTick (.str "rolling")) (by rw [← h2]; simp) rfl
      · simp at hl
        obtain ⟨_, h2, _⟩ := hl
        exact hne (by rw [← h2])
      · simp at hl
      · simp at hl
  ⟨rfl, by decide, hnot,
    (dedup_emits_on_first_sighting_or_change (NewBlazeSocket true)
      [doubleTick (.str "waiting"), doubleTick (.str "rolling")] [doubleTick (.str "complete")]
      (doubleTick (.str "rolling")) rfl (by decide)).2 hnot⟩

/-- Events emitted for one id with statuses `A, A, A, B, B, C` when the calls run in
that order: six raw events, three named ones. -/
theorem dedup_sequence_AAABBC :
    (((NewBlazeSocket true).feedDecoded
        [doubleTick (.str "A"), doubleTick (.str "A"), doubleTick (.str "A"),
          doubleTick (.str "B"), doubleTick (.str "B"), doubleTick (.str "C")]).1.flatten.map
      (fun e => e.event)) =
      ["CB:double.tick", "double.tick", "CB:double.tick", "CB:double.tick",
        "CB:double.tick", "double.tick", "CB:double.tick", "CB:double.tick", "double.tick"] := by
  decide

/-- Claim C1, evaluated: three frames for the string id `E1`, the first two with the
status `[]`, the third with the status `complete`, on a connected client in dedup mode.
The first two frames are equal, so whichever of their handler calls runs first emits the
raw and the named event without fault, and the other panics in
`cachedStatus != payloadStatus` after its raw event; the process ends, and neither the
raw nor the named event of the third frame is emitted. -/
theorem dedup_stops_on_repeated_array_status :
    (∀ g ∈ [doubleTick (.arr []), doubleTick (.arr []), doubleTick (.str "complete")],
      carriesIdStatus g = true) ∧
    decodeFrame arrayParse (.bytes frameArrayStatus) = some (doubleTick (.arr [])) ∧
    decodeFrame arrayParse (.bytes frameCompleteStatus) = some (doubleTick (.str "complete")) ∧
    ((NewBlazeSocket true).onDecoded (doubleTick (.arr []))).fault = none ∧
    (((NewBlazeSocket true).onDecoded (doubleTick (.arr []))).client.onDecoded
      (doubleTick (.arr []))).fault = some "comparing uncomparable type" ∧
    (World.run arrayParse (NewWorld true)
      [.connect tokenOptions none, .message (.bytes frameArrayStatus),
        .message (.bytes frameArrayStatus), .message (.bytes frameCompleteStatus)]).fault =
      some "comparing uncomparable type" ∧
    ((World.run arrayParse (NewWorld true)
      [.connect tokenOptions none, .message (.bytes frameArrayStatus),
        .message (.bytes frameArrayStatus), .message (.bytes frameCompleteStatus)]).events.map
      (fun e => e.event)) = ["subscriptions", "CB:double.tick", "double.tick", "CB:double.tick"] :=
  ⟨by decide, rfl, rfl, by decide, by decide, by decide, by decide⟩

/-- Counterexample to C2 as stated: in dedup mode a decoded `crash.tick-bets` frame,
whose payload has no `status`, is not passed through; nothing is emitted. -/
theorem frame_without_status_not_emitted :
    decodeFrame sampleParse (.text frameBets) = some betsFrame ∧
    (NewBlazeSocket true).cache = some [] ∧
    payloadField betsFrame "status" = none ∧
    ((NewBlazeSocket true).handleMessage sampleParse (.text frameBets)).emitted = [] :=
  ⟨rfl, rfl, rfl, rfl⟩

/-- Witness of C2 (amended) on the `crash.tick-bets` frame. -/
theorem frame_without_id_or_status_dropped_witness :
    decodeFrame sampleParse (.text frameBets) = some betsFrame ∧
    (payloadField betsFrame "id" = none ∨ payloadField betsFrame "status" = none) ∧
    ((NewBlazeSocket true).handleMessage sampleParse (.text frameBets)).emitted = [] ∧
    ((NewBlazeSocket true).handleMessage sampleParse (.text frameBets)).client = NewBlazeSocket true ∧
    ((NewBlazeSocket true).handleMessage sampleParse (.text frameBets)).fault = none :=
  ⟨rfl, Or.inl rfl,
    frame_without_id_or_status_dropped sampleParse (NewBlazeSocket true) (.text frameBets) betsFrame rfl
      (Or.inl rfl)⟩

/-- The sample frame is in the pattern. -/
theorem pattern_good : FramePattern frameGood bodyGood :=
  ⟨"42".toList, " ".toList, "\"payload\":1,\"id\":\"x\"".toList,
    by decide, by decide, by decide, by decide, rfl, rfl⟩

/-- Witness of C3 (amended) on a bytes frame with payload `1` and id `x`. -/
theorem well_formed_frame_decoded_witness :
    coerceText (.bytes frameGood) = some frameGood ∧ FramePattern frameGood bodyGood ∧
    sampleParse bodyGood = some (.obj [("payload", .num 1), ("id", .str "x")]) ∧
    decodeFrame sampleParse (.bytes frameGood) = some ⟨.num 1, "x"⟩ ∧
    NewBlazeMessageSocket.handleMessage sampleParse (.bytes frameGood) =
      [NewBlazeMessageSocket.emit "x" (.payload (.num 1))] :=
  ⟨rfl, pattern_good, rfl,
    well_formed_frame_decoded sampleParse NewBlazeMessageSocket (.bytes frameGood) frameGood
      bodyGood [("payload", .num 1), ("id", .str "x")] (.num 1) "x" rfl pattern_good rfl rfl
      (by intro h; cases h)
      (by
        intro kv hkv hk
        simp only [List.mem_cons, List.mem_singleton, List.not_mem_nil, or_false] at hkv
        rcases hkv with h | h
        · rw [h] at hk; exact absurd hk (by decide)
        · exact ⟨"x", by rw [h]⟩)
      rfl (by decide)⟩

/-- Counterexample to C3 as stated: five messages made of digits, the tag, a space and
a valid JSON object with a `payload` field and a string `id` field.  For four of them the
decoding stage yields nothing and `BlazeMessageSocket` emits nothing: a null payload, an
empty id, a line feed between the two members, and a second member `ID` holding a
number (a type error of `json.Unmarshal`).  For the fifth, with members `id` of value
`x` and `ID` of value `y`, the event decoded and emitted is `y`. -/
theorem decode_drops_null_payload_empty_id_line_feed :
    (FramePattern frameNullPayload bodyNullPayload ∧
      sampleParse bodyNullPayload = some (.obj [("payload", .null), ("id", .str "x")]) ∧
      decodeFrame sampleParse (.text frameNullPayload) = none ∧
      NewBlazeMessageSocket.handleMessage sampleParse (.text frameNullPayload) = []) ∧
    (FramePattern frameEmptyId bodyEmptyId ∧
      sampleParse bodyEmptyId = some (.obj [("payload", .num 1), ("id", .str "")]) ∧
      decodeFrame sampleParse (.text frameEmptyId) = none ∧
      NewBlazeMessageSocket.handleMessage sampleParse (.text frameEmptyId) = []) ∧
    (frameLineFeed.toList = "42".toList ++ (dataTag ++ (" ".toList ++ bodyLineFeed.toList ++ [rbracket])) ∧
      sampleParse bodyLineFeed = some (.obj [("payload", .num 1), ("id", .str "x")]) ∧
      decodeFrame sampleParse (.text frameLineFeed) = none ∧
      NewBlazeMessageSocket.handleMessage sampleParse (.text frameLineFeed) = []) ∧
    (FramePattern frameIdTypeError bodyIdTypeError ∧
      caseParse bodyIdTypeError =
        some (.obj [("ID", .num 5), ("id", .str "x"), ("payload", .num 1)]) ∧
      decodeFrame caseParse (.text frameIdTypeError) = none ∧
      NewBlazeMessageSocket.handleMessage caseParse (.text frameIdTypeError) = []) ∧
    (FramePattern frameIdTwice bodyIdTwice ∧
      caseParse bodyIdTwice =
        some (.obj [("id", .str "x"), ("ID", .str "y"), ("payload", .num 1)]) ∧
      decodeFrame caseParse (.text frameIdTwice) = some ⟨.num 1, "y"⟩ ∧
      NewBlazeMessageSocket.handleMessage caseParse (.text frameIdTwice) =
        [NewBlazeMessageSocket.emit "y" (.payload (.num 1))]) :=
  ⟨⟨⟨"42".toList, " ".toList, "\"payload\":null,\"id\":\"x\"".toList,
      by decide, by decide, by decide, by decide, rfl, rfl⟩, rfl, rfl, rfl⟩,
   ⟨⟨"42".toList, " ".toList, "\"payload\":1,\"id\":\"\"".toList,
      by decide, by decide, by decide, by decide, rfl, rfl⟩, rfl, rfl, rfl⟩,
   ⟨rfl, rfl, rfl, rfl⟩,
   ⟨⟨"42".toList, " ".toList, "\"ID\":5,\"id\":\"x\",\"payload\":1".toList,
      by decide, by decide, by decide, by decide, rfl, rfl⟩, rfl, rfl, rfl⟩,
   ⟨⟨"42".toList, " ".toList, "\"id\":\"x\",\"ID\":\"y\",\"payload\":1".toList,
      by decide, by decide, by decide, by decide, rfl, rfl⟩, rfl, rfl, rfl⟩⟩

/-- Counterexample to C4 as stated: a frame in the pattern whose body parses and has no
member `id` (its event name is under the key `ID`) and a non-null payload.  Both
handlers emit: `encoding/json` binds `ID` to the field of the struct. -/
theorem upper_case_id_is_emitted :
    FramePattern frameUpperId bodyUpperId ∧
    caseParse bodyUpperId =
      some (.obj [("payload", .obj [("id", .str "E1"), ("status", .str "waiting")]),
        ("ID", .str "double.tick")]) ∧
    List.lookup "id" [("payload", Json.obj [("id", .str "E1"), ("status", .str "waiting")]),
        ("ID", Json.str "double.tick")] = none ∧
    NewBlazeMessageSocket.handleMessage caseParse (.text frameUpperId) =
      [NewBlazeMessageSocket.emit "double.tick"
        (.payload (.obj [("id", .str "E1"), ("status", .str "waiting")]))] ∧
    (((NewBlazeSocket true).handleMessage caseParse (.text frameUpperId)).emitted.map
      (fun e => e.event)) = ["CB:double.tick", "double.tick"] :=
  ⟨⟨"42".toList, " ".toList,
      "\"payload\":\x7b\"id\":\"E1\",\"status\":\"waiting\"\x7d,\"ID\":\"double.tick\"".toList,
      by decide, by decide, by decide, by decide, rfl, rfl⟩, rfl, rfl, rfl, by decide⟩

/-- Witness of C4 (amended) on a frame with a null payload. -/
theorem rejected_message_is_silent_witness :
    Rejected sampleParse (.text frameNullPayload) ∧
    ((NewBlazeSocket true).handleMessage sampleParse (.text frameNullPayload)).emitted = [] ∧
    ((NewBlazeSocket true).handleMessage sampleParse (.text frameNullPayload)).client =
      NewBlazeSocket true ∧
    ((NewBlazeSocket true).handleMessage sampleParse (.text frameNullPayload)).fault = none ∧
    NewBlazeMessageSocket.handleMessage sampleParse (.text frameNullPayload) = [] :=
  have hrej : Rejected sampleParse (.text frameNullPayload) :=
    Or.inr ⟨frameNullPayload, rfl, Or.inr ⟨bodyNullPayload,
      ⟨"42".toList, " ".toList, "\"payload\":null,\"id\":\"x\"".toList,
        by decide, by decide, by decide, by decide, rfl, rfl⟩,
      Or.inr ⟨[("payload", .null), ("id", .str "x")], rfl, Or.inr (Or.inl rfl)⟩⟩⟩
  ⟨hrej, rejected_message_is_silent sampleParse (NewBlazeSocket true) NewBlazeMessageSocket
    (.text frameNullPayload) hrej⟩

/-! ## The client over its transport -/

theorem Registry.get_set {α : Type} (r : Registry α) (e e2 : String) (v : List α) :
    Registry.get (Registry.set r e v) e2 = if e2 = e then v else Registry.get r e2 := by
  induction r with
  | nil =>
    by_cases h : e2 = e
    · simp [Registry.set, Registry.get, List.lookup, h]
    · have : (e2 == e) = false := by simpa using h
      simp [Registry.set, Registry.get, List.lookup, h, this]
  | cons x rest ih =>
    obtain ⟨k, old⟩ := x
    unfold Registry.get at ih ⊢
    by_cases hk : k = e
    · subst hk
      by_cases h : e2 = k
      · simp [Registry.set, List.lookup, h]
      · have : (e2 == k) = false := by simpa using h
        simp [Registry.set, List.lookup, h, this]
    · by_cases h2 : e2 = k
      · have hne : e2 ≠ e := by rw [h2]; exact hk
        simp [Registry.set, hk, List.lookup, h2]
      · have : (e2 == k) = false := by simpa using h2
        simp only [Registry.set, hk, if_false, List.lookup, this]
        exact ih

theorem onRegister_get_other {α : Type} (r : Registry α) (e e2 : String) (h : α) (hne : e2 ≠ e) :
    Registry.get (onRegister r e h) e2 = Registry.get r e2 := by
  simp [onRegister, Registry.get_set, hne]

theorem onRegister_get_same {α : Type} (r : Registry α) (e : String) (h : α) :
    Registry.get (onRegister r e h) e = Registry.get r e ++ [h] := by
  simp [onRegister, Registry.get_set]

theorem runHandler_callbacks (parse : String → Option Json) (w : World) (h : Handler) (d : Data) :
    (w.runHandler parse h d).socket.callbacks = w.socket.callbacks := by
  unfold World.runHandler
  cases w.fault with
  | some _ => rfl
  | none =>
    cases h with
    | message => rfl
    | close o =>
      simp only [World.emit, World.socketDisconnect, World.stopInterval]
      cases w.client.interval <;> cases w.socket.conn <;> simp <;> split <;> rfl

theorem foldl_runHandler_callbacks (parse : String → Option Json) (d : Data) (hs : List Handler) :
    ∀ w : World, (hs.foldl (fun v h => v.runHandler parse h d) w).socket.callbacks =
      w.socket.callbacks := by
  induction hs with
  | nil => intro w; rfl
  | cons h rest ih => intro w; simp only [List.foldl]; rw [ih, runHandler_callbacks]

theorem socketEmit_callbacks (parse : String → Option Json) (w : World) (e : String) (d : Data) :
    (w.socketEmit parse e d).socket.callbacks = w.socket.callbacks :=
  foldl_runHandler_callbacks parse d _ w


theorem socketSend_socket (w : World) (d : Data) : (w.socketSend d).1.socket = w.socket := by
  unfold World.socketSend
  cases w.socket.conn with
  | none => rfl
  | some c => cases coerceText d <;> rfl

theorem initOpen_socket (w : World) (t : String) (token : Option String) :
    (w.initOpen t token).socket = w.socket := by
  unfold World.initOpen
  cases roomMap t with
  | none => rfl
  | some room =>
    cases token with
    | none => simp [World.emit, socketSend_socket]
    | some tk => simp [World.emit, socketSend_socket]

theorem initPing_socket (w : World) (t : Int) : (w.initPing t).socket = w.socket := by
  unfold World.initPing
  split <;> rfl

theorem socketConnect_callbacks (parse : String → Option Json) (w : World)
    (o : ConnectionSocketOptions) (dial : Option String) :
    (w.socketConnect parse o dial).1.socket.callbacks = w.socket.callbacks := by
  unfold World.socketConnect
  cases o.URL with
  | none => rfl
  | some u =>
    cases dial with
    | some e => rfl
    | none => simp [socketEmit_callbacks]

theorem Connect_open_handlers (parse : String → Option Json) (w : World) (o : SocketOptions)
    (dial : Option String) (h : NoOpenHandler w) : NoOpenHandler (w.Connect parse o dial).1 := by
  unfold NoOpenHandler at h ⊢
  have hc := socketConnect_callbacks parse w ⟨o.URL, o.Options⟩ dial
  unfold World.Connect
  rcases hs : w.socketConnect parse ⟨o.URL, o.Options⟩ dial with ⟨w1, e⟩
  rw [hs] at hc
  simp only at hc
  cases e with
  | some err => simp only; rw [hc]; exact h
  | none =>
    simp only
    cases hf : (w1.initPing (o.TimeoutPing.getD 10000)).fault with
    | some _ => simp only; rw [initPing_socket, hc]; exact h
    | none =>
      simp only [World.socketOn]
      rw [onRegister_get_other _ _ _ _ (by decide), onRegister_get_other _ _ _ _ (by decide),
        initOpen_socket, initPing_socket, hc]
      exact h

theorem step_open_handlers (parse : String → Option Json) (w : World) (i : Input)
    (h : NoOpenHandler w) : NoOpenHandler (w.step parse i) := by
  unfold World.step
  cases w.fault with
  | some _ => exact h
  | none =>
    cases i with
    | connect o dial => exact Connect_open_handlers parse w o dial h
    | register e cb => exact h
    | disconnect ce =>
      unfold NoOpenHandler at h ⊢
      simp only [World.Disconnect, World.socketDisconnect, World.stopInterval]
      cases w.client.interval <;> cases w.socket.conn <;> exact h
    | message d => unfold NoOpenHandler at h ⊢; simp only; rw [socketEmit_callbacks]; exact h
    | closeSignal => unfold NoOpenHandler at h ⊢; simp only; rw [socketEmit_callbacks]; exact h
    | reconnectNow dial =>
      simp only
      cases w.scheduled with
      | nil => exact h
      | cons o rest => exact Connect_open_handlers parse _ o dial h
    | tick t =>
      unfold NoOpenHandler at h ⊢
      simp only
      split
      · rw [socketSend_socket]; exact h
      · exact h

theorem run_open_handlers (parse : String → Option Json) (inputs : List Input) :
    ∀ w : World, NoOpenHandler w → NoOpenHandler (w.run parse inputs) := by
  induction inputs with
  | nil => intro w h; exact h
  | cons i rest ih => intro w h; exact ih _ (step_open_handlers parse w i h)

theorem socketConnect_ok (parse : String → Option Json) (w : World) (o : ConnectionSocketOptions)
    (u : String) (hu : o.URL = some u) (h : NoOpenHandler w) :
    w.socketConnect parse o none =
      ({ w with socket := { w.socket with conn := some w.dialed }, dialed := w.dialed + 1 }, none) := by
  unfold NoOpenHandler at h
  simp [World.socketConnect, hu, World.socketEmit, h]


theorem NewWorld_open_handlers (flag : Bool) : NoOpenHandler (NewWorld flag) := rfl

/-- Claim C5: in every reachable state of a live client, a successful `Connect` (address
present, dial succeeds, positive keepalive interval) whose mode `m` is in the room table
with room `r` hands to the transport, in this order and nothing else, the subscribe
frame for `r`, followed exactly when a token is supplied by the three authenticate
frames with envelopes 423, 422, 420; and it emits one event, `subscriptions` with
data `[r]`. -/
theorem connect_sends_handshake (parse : String → Option Json) (flag : Bool)
    (inputs : List Input) (w : World) (options : SocketOptions) (u m r : String)
    (hw : w = World.run parse (NewWorld flag) inputs) (hfault : w.fault = none)
    (hurl : options.URL = some u)
    (hping : 0 < pingDuration (options.TimeoutPing.getD 10000))
    (hmode : options.Type_.getD "crash" = m)
    (hroom : (m, r) ∈ [("crash", "crash_room_4"), ("doubles", "double_room_1"),
      ("crash_2", "crash_room_1"), ("crash_neymarjr", "crash_room_3")]) :
    (w.Connect parse options none).2 = none ∧
    (w.Connect parse options none).1.fault = none ∧
    (w.Connect parse options none).1.wire = w.wire ++ subscribeMsg r ::
      (match options.Token with
        | none => []
        | some t => [authMsg "423" t, authMsg "422" t, authMsg "420" t]) ∧
    (w.Connect parse options none).1.events =
      w.events ++ [w.client.emit "subscriptions" (.subscriptions [r])] := by
  have hopen : NoOpenHandler w := by
    rw [hw]; exact run_open_handlers parse inputs _ (NewWorld_open_handlers flag)
  have hsc := socketConnect_ok parse w ⟨options.URL, options.Options⟩ u hurl hopen
  have hp : ¬ pingDuration (options.TimeoutPing.getD 10000) ≤ 0 := not_le.2 hping
  have hr : roomMap m = some r := by
    simp only [List.mem_cons, List.mem_singleton, Prod.mk.injEq, List.not_mem_nil, or_false] at hroom
    rcases hroom with ⟨h1, h2⟩ | ⟨h1, h2⟩ | ⟨h1, h2⟩ | ⟨h1, h2⟩ <;> subst h1 <;> subst h2 <;> decide
  unfold World.Connect
  rw [hsc]
  simp only [World.initPing, hp, if_false, hfault, hmode, World.initOpen, hr, World.socketOn,
    World.emit, World.socketSend, coerceText]
  cases options.Token with
  | none => simp [BlazeSocket.emit]
  | some t => simp [BlazeSocket.emit]

/-- Claim C6 (amended): in every reachable state of a live client, `Connect` with a mode
that is not a key of the room table and a positive keepalive interval, over a transport
that connects, returns no error, emits one `error` event launched on the callbacks
registered for `error`, hands no frame to the transport whatever the token, and emits
no `subscriptions` event. -/
theorem connect_unknown_mode (parse : String → Option Json) (flag : Bool)
    (inputs : List Input) (w : World) (options : SocketOptions) (u m : String)
    (hw : w = World.run parse (NewWorld flag) inputs) (hfault : w.fault = none)
    (hurl : options.URL = some u)
    (hping : 0 < pingDuration (options.TimeoutPing.getD 10000))
    (hmode : options.Type_ = some m)
    (hroom : ∀ r, (m, r) ∉ roomTable) :
    (w.Connect parse options none).2 = none ∧
    (w.Connect parse options none).1.fault = none ∧
    (w.Connect parse options none).1.wire = w.wire ∧
    (w.Connect parse options none).1.events =
      w.events ++ [⟨"error", .error "missing type of socket", Registry.get w.client.callbacks "error"⟩] := by
  have hopen : NoOpenHandler w := by
    rw [hw]; exact run_open_handlers parse inputs _ (NewWorld_open_handlers flag)
  have hsc := socketConnect_ok parse w ⟨options.URL, options.Options⟩ u hurl hopen
  have hp : ¬ pingDuration (options.TimeoutPing.getD 10000) ≤ 0 := not_le.2 hping
  have hr : roomMap m = none := by
    cases h : roomMap m with
    | none => rfl
    | some r =>
      exfalso
      apply hroom r
      unfold roomMap at h
      simp only [roomTable, List.lookup] at h ⊢
      repeat' split at h
      all_goals simp_all
  unfold World.Connect
  rw [hsc]
  simp [World.initPing, hp, hfault, hmode, World.initOpen, hr, World.socketOn,
    World.emit, BlazeSocket.emit, emitOn]


theorem initOpen_fields (w : World) (t : String) (token : Option String) :
    (w.initOpen t token).scheduled = w.scheduled ∧ (w.initOpen t token).tickers = w.tickers ∧
    (w.initOpen t token).client = w.client ∧ (w.initOpen t token).fault = w.fault ∧
    (w.initOpen t token).closed = w.closed ∧ (w.initOpen t token).dialed = w.dialed := by
  unfold World.initOpen
  cases roomMap t with
  | none => simp [World.emit]
  | some room =>
    cases hc : w.socket.conn <;> cases token <;> simp [World.emit, World.socketSend, hc, coerceText]

theorem Connect_ok_shape (parse : String → Option Json) (w : World) (o : SocketOptions)
    (u : String) (hopen : NoOpenHandler w) (hfault : w.fault = none) (hurl : o.URL = some u)
    (hping : 0 < pingDuration (o.TimeoutPing.getD 10000)) :
    (w.Connect parse o none).2 = none ∧
    (w.Connect parse o none).1.socket.conn = some w.dialed ∧
    (w.Connect parse o none).1.socket.callbacks =
      onRegister (onRegister w.socket.callbacks "message" .message) "close" (.close o) ∧
    (w.Connect parse o none).1.scheduled = w.scheduled ∧
    (w.Connect parse o none).1.tickers = w.tickers ++ [true] ∧
    (w.Connect parse o none).1.client = { w.client with interval := some w.tickers.length } ∧
    (w.Connect parse o none).1.fault = none ∧
    (w.Connect parse o none).1.closed = w.closed ∧
    (w.Connect parse o none).1.dialed = w.dialed + 1 := by
  have hsc := socketConnect_ok parse w ⟨o.URL, o.Options⟩ u hurl hopen
  have hp : ¬ pingDuration (o.TimeoutPing.getD 10000) ≤ 0 := not_le.2 hping
  unfold World.Connect
  rw [hsc]
  simp only [World.initPing, hp, if_false, hfault, World.socketOn]
  simp only [initOpen_socket, initOpen_fields]
  simp [hfault]

theorem Disconnect_shape (w : World) (ce : Option String) :
    (w.Disconnect ce).1.socket.conn = none ∧
    (w.Disconnect ce).1.socket.callbacks = w.socket.callbacks ∧
    (w.Disconnect ce).1.scheduled = w.scheduled ∧
    (w.Disconnect ce).1.client = w.client ∧
    (w.Disconnect ce).1.fault = w.fault := by
  unfold World.Disconnect World.socketDisconnect World.stopInterval
  cases hi : w.client.interval <;> cases hc : w.socket.conn <;> simp [hc]

theorem runHandler_close_scheduled (parse : String → Option Json) (w : World) (o : SocketOptions)
    (d : Data) (hfault : w.fault = none) :
    (w.runHandler parse (.close o) d).scheduled =
      (if o.Reconnect = some true then w.scheduled ++ [o] else w.scheduled) ∧
    (w.runHandler parse (.close o) d).fault = none ∧
    (w.runHandler parse (.close o) d).socket.conn = none := by
  unfold World.runHandler
  simp only [hfault, World.emit, World.socketDisconnect, World.stopInterval]
  rcases hr : o.Reconnect with _ | _ | _ <;>
    cases hi : w.client.interval <;> cases hc : w.socket.conn <;> simp [hc, hfault]

/-- Claim C7 (amended): for a client connected with `options` and then disconnected by
the caller, the close processing that follows schedules one `Connect(options)` when
`options.Reconnect` is true and none when it is false or absent: `Disconnect` does not
suppress the reconnection. -/
theorem disconnect_then_close_follows_policy (parse : String → Option Json) (flag : Bool)
    (options : SocketOptions) (u : String) (closeErr : Option String)
    (hurl : options.URL = some u)
    (hping : 0 < pingDuration (options.TimeoutPing.getD 10000)) :
    (World.run parse (NewWorld flag)
      [.connect options none, .disconnect closeErr, .closeSignal]).scheduled =
      if options.Reconnect = some true then [options] else [] := by
  obtain ⟨_, _, hcb, hsch, _, _, hf, _, _⟩ := Connect_ok_shape parse (NewWorld flag) options u
    (NewWorld_open_handlers flag) rfl hurl hping
  obtain ⟨_, hcb2, hsch2, _, hf2⟩ :=
    Disconnect_shape ((NewWorld flag).Connect parse options none).1 closeErr
  have h1 : (NewWorld flag).step parse (.connect options none) =
      ((NewWorld flag).Connect parse options none).1 := rfl
  have h2 : (((NewWorld flag).Connect parse options none).1).step parse (.disconnect closeErr) =
      ((((NewWorld flag).Connect parse options none).1).Disconnect closeErr).1 := by
    simp [World.step, hf]
  have hfault3 : ((((NewWorld flag).Connect parse options none).1).Disconnect closeErr).1.fault
      = none := by rw [hf2, hf]
  have hhandlers : Registry.get
      ((((NewWorld flag).Connect parse options none).1).Disconnect closeErr).1.socket.callbacks
      "close" = [.close options] := by
    rw [hcb2, hcb, onRegister_get_same, onRegister_get_other _ _ _ _ (by decide)]
    rfl
  simp only [World.run, List.foldl, h1, h2]
  simp only [World.step, hfault3, World.socketEmit, hhandlers, List.foldl]
  rw [(runHandler_close_scheduled parse _ options (.int 1001) hfault3).1, hsch2, hsch]
  rfl


/-- Counterexample to C7 as stated: with `Reconnect = true`, the close signal that
follows a caller-initiated `Disconnect` schedules a `Connect` with the same options. -/
theorem disconnect_then_close_reconnects : (World.run noParse (NewWorld true)
      [.connect reconnectOptions none, .disconnect none, .closeSignal]).scheduled = [reconnectOptions] := by decide

/-- Claim C8, evaluated: with reconnect enabled the first close signal schedules one
`Connect`; after that reconnect succeeds, the second close signal runs the two `close`
handlers registered by the two `Connect` calls and schedules two. -/
theorem second_close_signal_schedules_two_connects :
    (World.run noParse (NewWorld true) [.connect reconnectOptions none, .closeSignal]).scheduled
      = [reconnectOptions] ∧
    (World.run noParse (NewWorld true)
      [.connect reconnectOptions none, .closeSignal, .reconnectNow none]).scheduled = [] ∧
    (World.run noParse (NewWorld true)
      [.connect reconnectOptions none, .closeSignal, .reconnectNow none, .closeSignal]).scheduled
      = [reconnectOptions, reconnectOptions] := by decide

/-- Claim C9, evaluated: after two successful `Connect` calls and a processed close,
the ticker of the first call is still running; likewise on the reconnect path alone,
where the third close signal leaves ticker 2 running.  Its heartbeat reaches the
transport, next to that of the new ticker, as soon as a later `Connect` succeeds. -/
theorem close_leaves_earlier_ticker_running :
    (World.run noParse (NewWorld true)
      [.connect reconnectOptions none, .connect reconnectOptions none, .closeSignal]).tickers
      = [true, false] ∧
    (World.run noParse (NewWorld true)
      [.connect reconnectOptions none, .closeSignal, .reconnectNow none, .closeSignal,
        .reconnectNow none, .reconnectNow none, .closeSignal]).tickers
      = [false, false, true, false] ∧
    (World.run noParse (NewWorld true)
      [.connect reconnectOptions none, .connect reconnectOptions none, .closeSignal,
        .reconnectNow none, .tick 0, .tick 2]).wire.drop 3 = ["2", "2"] := by decide

/-- Claim C10: on a connected client the first `Disconnect` closes the connection,
clears it and returns what `Close` returned; a second `Disconnect` right after returns
the error `missing socket`, changes nothing in the client or the transport, and raises
no fault. -/
theorem Disconnect_twice (w : World) (c : Nat) (e1 e2 : Option String)
    (hconn : w.socket.conn = some c) :
    (w.Disconnect e1).2 = e1 ∧
    (w.Disconnect e1).1.socket.conn = none ∧
    (w.Disconnect e1).1.closed = w.closed ++ [c] ∧
    (w.Disconnect e1).1.fault = w.fault ∧
    (w.Disconnect e1).1.Disconnect e2 = ((w.Disconnect e1).1, some "missing socket") := by
  unfold World.Disconnect World.socketDisconnect World.stopInterval
  cases hi : w.client.interval <;> simp [hconn, hi]


/-- Witness of C5: mode `doubles` with a token, on a new client. -/
theorem connect_sends_handshake_witness :
    (NewWorld true).fault = none ∧
    0 < pingDuration (tokenOptions.TimeoutPing.getD 10000) ∧
    ((NewWorld true).Connect noParse tokenOptions none).2 = none ∧
    ((NewWorld true).Connect noParse tokenOptions none).1.fault = none ∧
    ((NewWorld true).Connect noParse tokenOptions none).1.wire =
      ["420[\"cmd\",\x7b\"id\":\"subscribe\",\"payload\":\x7b\"room\":\"double_room_1\"\x7d\x7d]",
       "423[\"cmd\",\x7b\"id\":\"authenticate\",\"payload\":\x7b\"token\":\"tok\"\x7d\x7d]",
       "422[\"cmd\",\x7b\"id\":\"authenticate\",\"payload\":\x7b\"token\":\"tok\"\x7d\x7d]",
       "420[\"cmd\",\x7b\"id\":\"authenticate\",\"payload\":\x7b\"token\":\"tok\"\x7d\x7d]"] ∧
    ((NewWorld true).Connect noParse tokenOptions none).1.events =
      [⟨"subscriptions", .subscriptions ["double_room_1"], []⟩] :=
  ⟨rfl, by decide,
    connect_sends_handshake noParse true [] (NewWorld true) tokenOptions
      "wss://api-gaming.blaze.bet.br/replication/?EIO=3&transport=websocket" "doubles"
      "double_room_1" rfl rfl rfl (by decide) rfl (by decide)⟩

/-- Counterexample to C6 as stated: an unknown mode with `TimeoutPing = 0` over a
transport that connects.  `initPing` runs before `initOpen` and `time.NewTicker`
panics: `Connect` does not return, and no `error` event is emitted. -/
theorem connect_unknown_mode_zero_interval_panics :
    roomMap "unknown-mode" = none ∧
    ((NewWorld true).Connect noParse zeroPingOptions none).1.socket.conn = some 0 ∧
    ((NewWorld true).Connect noParse zeroPingOptions none).1.fault =
      some "non-positive interval for NewTicker" ∧
    ((NewWorld true).Connect noParse zeroPingOptions none).1.events = [] :=
  ⟨rfl, rfl, rfl, rfl⟩

/-- Witness of C6 (amended): mode `unknown-mode` with a token, on a new client. -/
theorem connect_unknown_mode_witness :
    (NewWorld true).fault = none ∧
    (∀ r, ("unknown-mode", r) ∉ roomTable) ∧
    ((NewWorld true).Connect noParse unknownModeOptions none).2 = none ∧
    ((NewWorld true).Connect noParse unknownModeOptions none).1.fault = none ∧
    ((NewWorld true).Connect noParse unknownModeOptions none).1.wire = [] ∧
    ((NewWorld true).Connect noParse unknownModeOptions none).1.events =
      [⟨"error", .error "missing type of socket", []⟩] :=
  have hkey : ∀ r, ("unknown-mode", r) ∉ roomTable := by
    intro r h
    simp [roomTable] at h
  ⟨rfl, hkey,
    connect_unknown_mode noParse true [] (NewWorld true) unknownModeOptions
      "wss://api-gaming.blaze.bet.br/replication/?EIO=3&transport=websocket" "unknown-mode"
      rfl rfl rfl (by decide) rfl hkey⟩

/-- Witness of C7 (amended): without a reconnect policy nothing is scheduled. -/
theorem disconnect_then_close_follows_policy_witness :
    tokenOptions.URL =
      some "wss://api-gaming.blaze.bet.br/replication/?EIO=3&transport=websocket" ∧
    0 < pingDuration (tokenOptions.TimeoutPing.getD 10000) ∧
    (World.run noParse (NewWorld true)
      [.connect tokenOptions none, .disconnect none, .closeSignal]).scheduled = [] :=
  ⟨rfl, by decide,
    disconnect_then_close_follows_policy noParse true tokenOptions
      "wss://api-gaming.blaze.bet.br/replication/?EIO=3&transport=websocket" none rfl (by decide)⟩

/-- Witness of C10: a new client connected once, then disconnected twice. -/
theorem Disconnect_twice_witness :
    ((NewWorld true).Connect noParse tokenOptions none).1.socket.conn = some 0 ∧
    ((((NewWorld true).Connect noParse tokenOptions none).1.Disconnect none).1.Disconnect none).2
      = some "missing socket" ∧
    (((NewWorld true).Connect noParse tokenOptions none).1.Disconnect none).1.closed = [0] :=
  ⟨rfl,
    by rw [(Disconnect_twice ((NewWorld true).Connect noParse tokenOptions none).1 0 none none
      rfl).2.2.2.2],
    (Disconnect_twice ((NewWorld true).Connect noParse tokenOptions none).1 0 none none
      rfl).2.2.1⟩

/-! ## Registration, connect errors, the chat handshake, faults of the dedup handler -/

theorem registerAll_callbacks (regs : List (String × Nat)) :
    ∀ b : BlazeSocket, (b.registerAll regs).callbacks =
      regs.foldl (fun c r => onRegister c r.1 r.2) b.callbacks := by
  induction regs with
  | nil => intro b; rfl
  | cons r rest ih => intro b; exact ih (b.On r.1 r.2)

theorem chat_registerAll_callbacks (regs : List (String × Nat)) :
    ∀ b : BlazeMessageSocket, (b.registerAll regs).callbacks =
      regs.foldl (fun c r => onRegister c r.1 r.2) b.callbacks := by
  induction regs with
  | nil => intro b; rfl
  | cons r rest ih => intro b; exact ih (b.On r.1 r.2)

theorem get_foldl_onRegister (regs : List (String × Nat)) (e : String) :
    ∀ c : Registry Nat, Registry.get (regs.foldl (fun c r => onRegister c r.1 r.2) c) e =
      Registry.get c e ++ registeredFor regs e := by
  induction regs with
  | nil => intro c; simp [registeredFor]
  | cons r rest ih =>
    intro c
    simp only [List.foldl]
    rw [ih]
    by_cases h : r.1 = e
    · subst h
      simp [registeredFor, onRegister_get_same, List.filter]
    · have h2 : e ≠ r.1 := fun x => h x.symm
      simp [registeredFor, onRegister_get_other _ _ _ _ h2, List.filter, h]

/-- Claim C13: for every sequence of `On` registrations on a new client and every event
name `e`, `emit(e, d)` launches with argument `d`, once per registration and in
registration order, exactly the callbacks registered under `e`, none registered under
another name; and `On(e, cb)` appends `cb` to the end of the list of `e` and leaves the
list of every other name unchanged.  Both clients. -/
theorem emit_launches_registered_callbacks (flag : Bool) (regs : List (String × Nat))
    (e e2 : String) (d : EventData) (cb : Nat) (b : BlazeSocket) (m : BlazeMessageSocket) :
    ((NewBlazeSocket flag).registerAll regs).emit e d = ⟨e, d, registeredFor regs e⟩ ∧
    (NewBlazeMessageSocket.registerAll regs).emit e d = ⟨e, d, registeredFor regs e⟩ ∧
    Registry.get (b.On e cb).callbacks e2 =
      (if e2 = e then Registry.get b.callbacks e ++ [cb] else Registry.get b.callbacks e2) ∧
    Registry.get (m.On e cb).callbacks e2 =
      (if e2 = e then Registry.get m.callbacks e ++ [cb] else Registry.get m.callbacks e2) := by
  refine ⟨?_, ?_, ?_, ?_⟩
  · simp only [BlazeSocket.emit, emitOn, registerAll_callbacks, get_foldl_onRegister]
    simp [NewBlazeSocket, Registry.get]
  · simp only [BlazeMessageSocket.emit, emitOn, chat_registerAll_callbacks, get_foldl_onRegister]
    simp [NewBlazeMessageSocket, Registry.get]
  · by_cases h : e2 = e
    · subst h; simp [BlazeSocket.On, onRegister_get_same]
    · simp [BlazeSocket.On, onRegister_get_other _ _ _ _ h, h]
  · by_cases h : e2 = e
    · subst h; simp [BlazeMessageSocket.On, onRegister_get_same]
    · simp [BlazeMessageSocket.On, onRegister_get_other _ _ _ _ h, h]

/-- Claim C11: when the address is absent the transport's `Connect` returns the error
`missing url`; and whenever the transport's `Connect` returns an error (missing address,
or a failure of `url.Parse` or of the dial), `BlazeSocket.Connect` returns that same
error and leaves client and transport unchanged: no ticker is started, no handler is
registered, no frame is sent and no event is emitted. -/
theorem connect_error_is_returned (parse : String → Option Json) (w : World)
    (options : SocketOptions) (dial : Option String) (err : String)
    (herr : (w.socketConnect parse ⟨options.URL, options.Options⟩ dial).2 = some err) :
    (options.URL = none → err = "missing url") ∧
    (w.Connect parse options dial).2 = some err ∧
    (w.Connect parse options dial).1 = w ∧
    (w.Connect parse options dial).1.tickers = w.tickers ∧
    (w.Connect parse options dial).1.socket.callbacks = w.socket.callbacks ∧
    (w.Connect parse options dial).1.wire = w.wire ∧
    (w.Connect parse options dial).1.events = w.events := by
  have hc : w.Connect parse options dial = (w, some err) ∧
      (options.URL = none → err = "missing url") := by
    unfold World.socketConnect at herr
    unfold World.Connect World.socketConnect
    cases hu : options.URL with
    | none =>
      simp only [hu] at herr ⊢
      have h : err = "missing url" := by simpa using herr.symm
      simp [h]
    | some u =>
      cases dial with
      | none => simp [hu] at herr
      | some e =>
        simp only [hu] at herr ⊢
        have h : e = err := by simpa using herr
        simp [h]
  rw [hc.1]
  exact ⟨hc.2, rfl, rfl, rfl, rfl, rfl, rfl⟩

/-- Witness of C11: `Connect` without an address on a new client. -/
theorem connect_error_is_returned_witness :
    ((NewWorld true).socketConnect noParse ⟨missingUrlOptions.URL, missingUrlOptions.Options⟩
      none).2 = some "missing url" ∧
    ((NewWorld true).Connect noParse missingUrlOptions none).2 = some "missing url" ∧
    ((NewWorld true).Connect noParse missingUrlOptions none).1.tickers = [] ∧
    ((NewWorld true).Connect noParse missingUrlOptions none).1.socket.callbacks = [] ∧
    ((NewWorld true).Connect noParse missingUrlOptions none).1.wire = [] ∧
    ((NewWorld true).Connect noParse missingUrlOptions none).1.events = [] :=
  ⟨rfl,
    (connect_error_is_returned noParse (NewWorld true) missingUrlOptions none "missing url"
      rfl).2.1,
    (connect_error_is_returned noParse (NewWorld true) missingUrlOptions none "missing url"
      rfl).2.2.2⟩

/-- Claim C12, evaluated: the first successful `Connect` of a new chat client returns nil
with the connection open, but hands no frame to the transport and emits no event: the
closure that sends the subscribe frame is registered under `open` only after the
transport has raised `open`.  A second `Connect` on the same instance runs it. -/
theorem chat_first_connect_sends_no_handshake :
    (NewChatWorld.Connect noParse tokenOptions none).2 = none ∧
    (NewChatWorld.Connect noParse tokenOptions none).1.fault = none ∧
    (NewChatWorld.Connect noParse tokenOptions none).1.conn = some 0 ∧
    (NewChatWorld.Connect noParse tokenOptions none).1.wire = [] ∧
    (NewChatWorld.Connect noParse tokenOptions none).1.events = [] ∧
    Registry.get (NewChatWorld.Connect noParse tokenOptions none).1.callbacks "open" =
      [.subscribe (some "tok")] ∧
    ((NewChatWorld.Connect noParse tokenOptions none).1.Connect noParse tokenOptions none).1.wire
      = [chatSubscribeMsg] ∧
    (((NewChatWorld.Connect noParse tokenOptions none).1.Connect noParse tokenOptions
      none).1.events.map (fun e => e.event)) = ["subscriptions"] :=
  ⟨rfl, rfl, rfl, rfl, rfl, rfl, rfl, rfl⟩

/-- Claim C14, evaluated: in dedup mode a decoded frame whose payload id is a number
faults in the type assertion `payloadID.(string)`, and the second of two frames whose
status is an object faults in `cachedStatus != payloadStatus`; the fault ends the
process, the third frame of the second run is never handled. -/
theorem dedup_handler_faults_on_number_id_and_object_status :
    ((NewBlazeSocket true).onDecoded numberIdTick).fault =
      some "interface conversion: interface is not string" ∧
    (((NewBlazeSocket true).onDecoded (doubleTick (.obj []))).client.onDecoded
      (doubleTick (.obj []))).fault = some "comparing uncomparable type" ∧
    decodeFrame tickParse (.bytes frameNumberId) = some numberIdTick ∧
    decodeFrame tickParse (.bytes frameObjectStatus) = some (doubleTick (.obj [])) ∧
    (World.run tickParse (NewWorld true)
      [.connect tokenOptions none, .message (.bytes frameNumberId)]).fault =
      some "interface conversion: interface is not string" ∧
    (World.run tickParse (NewWorld true)
      [.connect tokenOptions none, .message (.bytes frameObjectStatus),
        .message (.bytes frameObjectStatus)]).fault = some "comparing uncomparable type" ∧
    ((World.run tickParse (NewWorld true)
      [.connect tokenOptions none, .message (.bytes frameObjectStatus),
        .message (.bytes frameObjectStatus), .message (.bytes frameObjectStatus)]).events.map
      (fun e => e.event)) = ["subscriptions", "CB:double.tick", "double.tick", "CB:double.tick"] :=
  ⟨by decide, by decide, rfl, rfl, by decide, by decide, by decide⟩

end Blaze
